import Mathlib

/-!
Shallow embedding of the RBAC enforcement/caching engine and the
session/token lifecycle of the `auth_microservice` repository
(`auth_microservice/rbac/service.py`, `services/auth/service.py`,
`web/api/dependencies.py`, `core/security.py`), together with theorems
checking the specification's claims about them.

Integer ids (user, role, organization, session) are modelled as `Nat`.
The source converts them with `str(...)` before handing them to the
casbin enforcer and embeds them in cache keys; since `str` is injective
on integers, keeping them as `Nat` in the model is faithful.
Timestamps (`datetime`) are modelled as `Int` seconds; a
`timedelta(minutes=m)` is `m * 60`.
-/

namespace AuthMicroservice

/-- A casbin policy rule as added by `RbacService._load_role_permissions`:
`(str(role_id), permission_name, str(organization_id), "access")`. -/
structure PolicyRule where
  roleId : Nat
  perm : String
  orgId : Nat
  act : String
deriving DecidableEq, Repr

/-- A casbin grouping rule as added by `RbacService._load_user_roles`:
`(str(user_id), str(role_id), str(organization_id))`. -/
structure GroupingRule where
  userId : Nat
  roleId : Nat
  orgId : Nat
deriving DecidableEq, Repr

/-- The in-memory casbin model: the `p` policy rules and the `g`
grouping rules currently loaded. -/
structure Enforcer where
  policies : List PolicyRule
  groupings : List GroupingRule
deriving DecidableEq, Repr

/-- Model of `casbin.Enforcer.clear_policy`: removes every policy and grouping rule. -/
def Enforcer.clear_policy (_e : Enforcer) : Enforcer := ⟨[], []⟩

/-- Model of `casbin.Enforcer.add_policy`: appends the rule unless it is already present. -/
def Enforcer.add_policy (e : Enforcer) (p : PolicyRule) : Enforcer :=
  if p ∈ e.policies then e else { e with policies := e.policies ++ [p] }

/-- Model of `casbin.Enforcer.add_grouping_policy`: appends the grouping rule unless
it is already present. -/
def Enforcer.add_grouping_policy (e : Enforcer) (g : GroupingRule) : Enforcer :=
  if g ∈ e.groupings then e else { e with groupings := e.groupings ++ [g] }

/-- Modelled from the spec: the casbin model file
`auth_microservice/rbac/model.conf` is referenced by the tests but is not
among the sources, so the matcher is taken from spec §4.2: `evaluate`
"resolves the roles a user holds inside that organization via the grouping
relation, then checks whether any of those roles holds a direct grant for
(permission_name, organization_id, action)" — the organization id acting as
the domain discriminator on both the grouping and the grant. -/
def Enforcer.enforce (e : Enforcer) (userId : Nat) (perm : String)
    (orgId : Nat) (act : String) : Bool :=
  e.groupings.any fun g =>
    g.userId == userId && g.orgId == orgId &&
      e.policies.any fun p =>
        p.roleId == g.roleId && p.perm == perm && p.orgId == orgId && p.act == act

/-- Modelled from the spec (missing `model.conf`, §4.2): the roles a user
holds inside one organization, as queried by
`get_roles_for_user_in_domain` in `RbacService.get_user_permissions`. -/
def Enforcer.get_roles_for_user_in_domain (e : Enforcer) (userId orgId : Nat) :
    List Nat :=
  (e.groupings.filter fun g => g.userId == userId && g.orgId == orgId).map
    (fun g => g.roleId)

/-- Modelled from the spec (missing `model.conf`, §4.2): the grants held by
one role inside one organization, as queried by
`get_permissions_for_user_in_domain` in `RbacService.get_user_permissions`. -/
def Enforcer.get_permissions_for_user_in_domain (e : Enforcer) (roleId orgId : Nat) :
    List PolicyRule :=
  e.policies.filter fun p => p.roleId == roleId && p.orgId == orgId

/-- A row of the role-permission join executed by
`RbacService._load_role_permissions`: `(role_id, permission_name,
role_permission.organization_id)`. -/
structure RolePermFact where
  roleId : Nat
  permName : String
  orgId : Nat
deriving DecidableEq, Repr

/-- A row of the user query executed by `RbacService._load_user_roles`:
`(user_id, role_id, organization_id)`; `role_id` is nullable. -/
structure UserRoleFact where
  userId : Nat
  roleId : Option Nat
  orgId : Nat
deriving DecidableEq, Repr

/-- The relational fact store as seen by `reload_policies`: each of the two
queries either returns its rows or raises (`Except.error`). -/
structure FactStore where
  rolePermRows : Except Unit (List RolePermFact)
  userRoleRows : Except Unit (List UserRoleFact)

/-- Body of `RbacService._load_role_permissions`: adds one `p` rule per joined row,
with the fixed action `"access"`. -/
def load_role_permissions (e : Enforcer) (rows : List RolePermFact) : Enforcer :=
  rows.foldl (fun acc f => acc.add_policy ⟨f.roleId, f.permName, f.orgId, "access"⟩) e

/-- Loop body of `RbacService._load_user_roles`: skip a null `role_id`,
otherwise add the grouping rule. -/
def user_role_step (acc : Enforcer) (f : UserRoleFact) : Enforcer :=
  match f.roleId with
  | none => acc
  | some r => acc.add_grouping_policy ⟨f.userId, r, f.orgId⟩

/-- Body of `RbacService._load_user_roles`: the query keeps only rows with
`role_id IS NOT NULL`, and the loop skips a null `role_id` again before
adding the grouping rule. -/
def load_user_roles (e : Enforcer) (rows : List UserRoleFact) : Enforcer :=
  (rows.filter fun f => f.roleId ≠ none).foldl user_role_step e

/-- A redis key used by the service. `decision u org perm act` renders as
the string `rbac:decision:{u}:{org}:{perm}:{act}` (see `renderKey`); the
structured form keeps the key families apart exactly as the
`rbac:decision:*` glob of `_clear_cached_decisions` does. -/
inductive RKey
  | decision (userId orgId : Nat) (perm act : String)
  | other (s : String)
deriving DecidableEq, Repr

/-- The string rendering of a redis key; for decision keys this is the
f-string `rbac:decision:{user_id}:{organization_id}:{permission_name}:{action}`
built in `RbacService.enforce`. -/
def renderKey : RKey → String
  | RKey.decision u o p a =>
      "rbac:decision:" ++ toString u ++ ":" ++ toString o ++ ":" ++ p ++ ":" ++ a
  | RKey.other s => s

/-- One redis entry: key, cached boolean (stored as `b"1"`/`b"0"` in the
source, read back via `cached == b"1"`, hence a faithful `Bool`), and the
absolute expiry instant set by `SET ... ex=ttl`. -/
structure CacheEntry where
  key : RKey
  value : Bool
  expiresAt : Int
deriving DecidableEq, Repr

/-- Redis `GET` at time `now`: the entry's value while `now` is before its
expiry instant. -/
def cacheGet (cache : List CacheEntry) (key : RKey) (now : Int) : Option Bool :=
  match cache.find? (fun c => decide (c.key = key) && decide (now < c.expiresAt)) with
  | some c => some c.value
  | none => none

/-- Redis `SET key value ex=ttl` at time `now`: replaces any entry under the
key with one expiring at `now + ttl`. -/
def cacheSetEx (cache : List CacheEntry) (key : RKey) (v : Bool) (ttl now : Int) :
    List CacheEntry :=
  cache.filter (fun c => c.key ≠ key) ++ [⟨key, v, now + ttl⟩]

/-- Whether a key is matched by the `rbac:decision:*` scan of
`_clear_cached_decisions`. -/
def isDecisionKey : RKey → Bool
  | RKey.decision _ _ _ _ => true
  | RKey.other _ => false

/-- The mutable state of `RbacService`: the casbin enforcer, the
`_policies_loaded` flag, the attached redis contents, and whether a redis
pool was supplied at construction (`self._redis is not None`). -/
structure RbacState where
  enforcer : Enforcer
  policiesLoaded : Bool
  cache : List CacheEntry
  hasRedis : Bool
deriving Repr

/-- Body of `RbacService._clear_cached_decisions`: with redis attached, scans for
`rbac:decision:*` keys and deletes them (in batches in the source; the
net effect is that every decision key is gone); without redis it is a no-op. -/
def clear_cached_decisions (st : RbacState) : RbacState :=
  if st.hasRedis then
    { st with cache := st.cache.filter fun c => !isDecisionKey c.key }
  else st

/-- The observable steps of one `reload_policies` call, in execution order. -/
inductive ReloadEvent
  | cacheInvalidated
  | policyCleared
  | rolePermsLoaded
  | userRolesLoaded
  | loadedFlagSet
deriving DecidableEq, Repr

/-- Body of `RbacService.reload_policies`: under the lock, clear the cached
decisions, clear the casbin model, load the role-permission rows, load the
user-role rows, then set `_policies_loaded = True`. A raise from either
query propagates (`some "reload_failed"`), leaving the mutations already
performed in place. The event list records the steps that were executed,
in order. -/
def reload_policies (store : FactStore) (st : RbacState) :
    RbacState × List ReloadEvent × Option String :=
  let st1 := clear_cached_decisions st
  let st2 := { st1 with enforcer := st1.enforcer.clear_policy }
  match store.rolePermRows with
  | Except.error _ =>
      (st2, [ReloadEvent.cacheInvalidated, ReloadEvent.policyCleared],
        some "reload_failed")
  | Except.ok rpRows =>
    let st3 := { st2 with enforcer := load_role_permissions st2.enforcer rpRows }
    match store.userRoleRows with
    | Except.error _ =>
        (st3,
          [ReloadEvent.cacheInvalidated, ReloadEvent.policyCleared,
            ReloadEvent.rolePermsLoaded],
          some "reload_failed")
    | Except.ok urRows =>
      let st4 := { st3 with enforcer := load_user_roles st3.enforcer urRows }
      ({ st4 with policiesLoaded := true },
        [ReloadEvent.cacheInvalidated, ReloadEvent.policyCleared,
          ReloadEvent.rolePermsLoaded, ReloadEvent.userRolesLoaded,
          ReloadEvent.loadedFlagSet],
        none)

/-- Body of `RbacService.ensure_policies_loaded`: a no-op once the flag is set,
otherwise a full reload. -/
def ensure_policies_loaded (store : FactStore) (st : RbacState) :
    RbacState × Option String :=
  if st.policiesLoaded then (st, none)
  else
    let r := reload_policies store st
    (r.1, r.2.2)

/-- The outcome of one `RbacService.enforce` call: the boolean decision,
the state afterwards, and how many underlying `casbin.Enforcer.enforce`
evaluations were performed (0 on a cache hit, 1 otherwise). -/
structure EnforceResult where
  decision : Bool
  state : RbacState
  evalCount : Nat
deriving Repr

/-- Body of `RbacService.enforce`: ensure policies are loaded; with redis attached,
build the decision key and return a live cached value if present; otherwise
evaluate the casbin model and, with redis attached, store the decision with
a 60-second TTL. -/
def RbacState.enforce (st : RbacState) (store : FactStore) (now : Int)
    (userId : Nat) (perm : String) (orgId : Nat) (act : String) :
    Except String EnforceResult :=
  match ensure_policies_loaded store st with
  | (_, some e) => Except.error e
  | (st1, none) =>
    let key := RKey.decision userId orgId perm act
    if st1.hasRedis then
      match cacheGet st1.cache key now with
      | some v => Except.ok ⟨v, st1, 0⟩
      | none =>
        let d := st1.enforcer.enforce userId perm orgId act
        Except.ok ⟨d, { st1 with cache := cacheSetEx st1.cache key d 60 now }, 1⟩
    else
      let d := st1.enforcer.enforce userId perm orgId act
      Except.ok ⟨d, st1, 1⟩

/-- Body of `RbacService.get_user_permissions`: ensure policies are loaded, collect
the user's roles in the organization, union their grants' permission names,
and return them deduplicated and sorted (`sorted(set)` in the source). -/
def RbacState.get_user_permissions (st : RbacState) (store : FactStore)
    (userId orgId : Nat) : Except String (List String × RbacState) :=
  match ensure_policies_loaded store st with
  | (_, some e) => Except.error e
  | (st1, none) =>
    let roles := st1.enforcer.get_roles_for_user_in_domain userId orgId
    let names := roles.foldl
      (fun acc r =>
        (st1.enforcer.get_permissions_for_user_in_domain r orgId).foldl
          (fun a p => if p.perm ∈ a then a else a ++ [p.perm]) acc)
      []
    Except.ok (names.mergeSort (fun a b => decide (a ≤ b)), st1)

/-- Body of `RbacService.invalidate_cache`: reset the loaded flag and delete the
cached decisions. -/
def invalidate_cache (st : RbacState) : RbacState :=
  clear_cached_decisions { st with policiesLoaded := false }

/-! Session/token subsystem (`core/security.py`, `services/auth/service.py`,
`web/api/dependencies.py`). -/

/-- The configuration values read from `auth_microservice.settings`
(the settings module is not among the sources; the fields are exactly the
ones the embedded code reads, kept abstract). -/
structure Settings where
  jwt_access_token_expires_minutes : Nat
  jwt_refresh_token_expires_minutes : Nat
  password_reset_token_expires_minutes : Nat
deriving Repr

/-- Model of `core.security.hash_password`: bcrypt is modelled as an injective
tagging function. The salt is immaterial here — the only property the code
relies on is that `verify_password(p, hash_password(q))` holds exactly when
`p = q` (no-collision assumption on bcrypt). -/
def hash_password (password : String) : String := "$2b$" ++ password

/-- Model of `core.security.verify_password`: checks the plain text against the hash. -/
def verify_password (plain hashed : String) : Bool := hashed == hash_password plain

/-- The claims of a signed access token, as written by
`AuthService.issue_token` / `core.security.create_access_token` and read by
`get_current_principal`. A signed token is modelled by its payload; `sub`
is the stringified user id, `session_id` the session primary key. -/
structure TokenPayload where
  sub : Option String
  exp : Int
  username : Option String
  organization_id : Option Nat
  role_id : Option (Option Nat)
  email : Option String
  session_id : Option Nat
deriving DecidableEq, Repr

/-- The `uuh_users` row fields the auth subsystem reads. `status` is the
enum's string value. -/
structure UserRec where
  user_id : Nat
  username : String
  password : String
  organization_id : Nat
  role_id : Option Nat
  status : String
deriving DecidableEq, Repr

/-- A `uuh_user_login` session row (`UserLogin` ORM model). -/
structure UserLogin where
  login_id : Nat
  user_id : Nat
  issued_at : Int
  refresh_token_hash : String
  refresh_token_expires_at : Int
  revoked_at : Option Int
  last_refreshed_at : Option Int
  ip_address : Option String
  user_agent : Option String
deriving DecidableEq, Repr

/-- Body of `AuthService.issue_token`: builds the access-token claims from the user
record — `sub = str(user.user_id)`, the username/organization/role claims,
the optional email and session id — and returns the token together with the
configured expiry minutes. `exp` is `now` plus that many minutes. -/
def issue_token (settings : Settings) (user : UserRec) (email : Option String)
    (session_id : Option Nat) (now : Int) : TokenPayload × Nat :=
  let expires := settings.jwt_access_token_expires_minutes
  (⟨some (toString user.user_id), now + expires * 60, some user.username,
      some user.organization_id, some user.role_id, email, session_id⟩,
    expires)

/-- Body of `AuthService.revoke_session`: stamps `revoked_at` with the current time.
The gauge decrement and flush have no bearing on the session row itself. -/
def revoke_session (session : UserLogin) (now : Int) : UserLogin :=
  { session with revoked_at := some now }

/-- The successful result of `AuthService.refresh_session` (the user/email
fields of the returned dict are omitted; the session row is returned
alongside). -/
structure RefreshResult where
  access_token : TokenPayload
  access_token_expires_minutes : Nat
  refresh_token : String
  refresh_token_expires_at : Int
deriving Repr

/-- Body of `AuthService.refresh_session`: reject a revoked session, then an
expired refresh window, then a presented token that does not match the
stored hash; on success rotate to the freshly generated token
(`newToken` stands for `secrets.token_urlsafe(48)`), extend the expiry to
`now` plus the configured refresh TTL, stamp `last_refreshed_at`, update
ip/user-agent when given, then mint a fresh access token for the session's
user (`getUser` is the user lookup; `email` the primary email lookup). -/
def refresh_session (settings : Settings) (session : UserLogin)
    (refresh_token : String) (now : Int) (newToken : String)
    (ip ua : Option String) (getUser : Nat → Option UserRec)
    (email : Option String) : Except String (UserLogin × RefreshResult) :=
  if session.revoked_at ≠ none then Except.error "session_revoked"
  else if session.refresh_token_expires_at < now then Except.error "refresh_expired"
  else if ¬ verify_password refresh_token session.refresh_token_hash then
    Except.error "invalid_refresh_token"
  else
    let session1 : UserLogin :=
      { session with
          refresh_token_hash := hash_password newToken,
          refresh_token_expires_at :=
            now + settings.jwt_refresh_token_expires_minutes * 60,
          last_refreshed_at := some now,
          ip_address := if ip.isSome then ip else session.ip_address,
          user_agent := if ua.isSome then ua else session.user_agent }
    match getUser session.user_id with
    | none => Except.error "user_not_found"
    | some user =>
      let minted := issue_token settings user email (some session1.login_id) now
      Except.ok (session1,
        ⟨minted.1, minted.2, newToken, session1.refresh_token_expires_at⟩)

/-- The `AuthenticatedPrincipal` dataclass of `web/api/dependencies.py`.
`raw_token` is the bearer token itself, which the model identifies with its
payload. -/
structure Principal where
  user_id : Nat
  session_id : Nat
  organization_id : Nat
  role_id : Option Nat
  status : String
  username : String
  token_payload : TokenPayload
  raw_token : TokenPayload
deriving DecidableEq, Repr

/-- Body of `get_current_principal`: the argument `decoded` is the outcome of
`decode_token(token)` (`Except.error` for a `JWTError`, i.e. a bad
signature or an expired access token; the missing-credentials and
non-bearer-scheme rejections happen before decoding and are outside this
model). The remaining steps mirror the source: require the `sub` and
`session_id` claims, parse the subject (`int(subject)` modelled by
`String.toNat?`), look up the session, reject on a missing session or a
user-id mismatch, a revoked session, an elapsed refresh window, or a
missing user record; otherwise build the principal from the user record
and the session row. -/
def get_current_principal (decoded : Except Unit TokenPayload)
    (getSession : Nat → Option UserLogin) (getUser : Nat → Option UserRec)
    (now : Int) : Except String Principal :=
  match decoded with
  | Except.error _ => Except.error "invalid_token"
  | Except.ok payload =>
    match payload.sub, payload.session_id with
    | none, _ => Except.error "invalid_token_payload"
    | some _, none => Except.error "invalid_token_payload"
    | some subject, some session_pk =>
      match subject.toNat? with
      | none => Except.error "invalid_token_payload"
      | some user_id =>
        match getSession session_pk with
        | none => Except.error "session_not_found"
        | some session_record =>
          if session_record.user_id ≠ user_id then
            Except.error "session_not_found"
          else if session_record.revoked_at ≠ none then
            Except.error "session_revoked"
          else if session_record.refresh_token_expires_at < now then
            Except.error "session_expired"
          else
            match getUser user_id with
            | none => Except.error "user_not_found"
            | some user =>
              Except.ok
                ⟨user.user_id, session_record.login_id, user.organization_id,
                  user.role_id, user.status, user.username, payload, payload⟩

/-! Password-reset bookkeeping, redis-backed branch of
`AuthService.create_password_reset_token` / `AuthService.reset_password`.
The three redis key families the code uses — `password_reset:rate:{uid}`
(an INCR counter), `password_reset:user:{uid}` (the user's current token)
and `password_reset:token:{tok}` (token → user id) — are modelled as three
association lists carrying each entry's absolute expiry instant; a key is
live at `now` while `now < expiresAt`. Writes keep at most one entry per
key. -/

/-- The password-reset portion of the redis state. -/
structure ResetStore where
  rate : List (Nat × Nat × Int)
  userTok : List (Nat × String × Int)
  tokUser : List (String × Nat × Int)
deriving DecidableEq, Repr

/-- Live `GET`/read of the rate counter for a user: count and expiry. -/
def liveRate (st : ResetStore) (uid : Nat) (now : Int) : Option (Nat × Int) :=
  match st.rate.find? (fun e => e.1 == uid) with
  | some e => if now < e.2.2 then some e.2 else none
  | none => none

/-- Live `GET` of `password_reset:user:{uid}`: the user's current token. -/
def liveUserTok (st : ResetStore) (uid : Nat) (now : Int) : Option String :=
  match st.userTok.find? (fun e => e.1 == uid) with
  | some e => if now < e.2.2 then some e.2.1 else none
  | none => none

/-- Live `GET` of `password_reset:token:{tok}`: the owning user id. -/
def liveTokUser (st : ResetStore) (tok : String) (now : Int) : Option Nat :=
  match st.tokUser.find? (fun e => e.1 == tok) with
  | some e => if now < e.2.2 then some e.2.1 else none
  | none => none

/-- Redis-branch body of `AuthService.create_password_reset_token`.
`userByEmail` is the result of the user-by-email query (`None` when the
account does not exist — the caller then silently declines); `freshToken`
stands for `secrets.token_urlsafe(32)`. Mirrors the source: `INCR` the rate
key (an expired key counts from scratch; `EXPIRE 3600` only when the
incremented value is 1, so an existing key keeps its window); decline with
`none` once the count exceeds 5 (the counter increment persists); delete
the previously issued token's key if the user-key is live; then `SETEX`
both the token key and the user key for the configured expiry. -/
def create_password_reset_token (settings : Settings) (st : ResetStore)
    (userByEmail : Option Nat) (now : Int) (freshToken : String) :
    Option String × ResetStore :=
  match userByEmail with
  | none => (none, st)
  | some uid =>
    let expSecs : Int := (settings.password_reset_token_expires_minutes : Int) * 60
    let incremented :=
      match liveRate st uid now with
      | some ce => (ce.1 + 1, ce.2)
      | none => (1, now + 3600)
    let rate1 := (st.rate.filter fun e => e.1 ≠ uid) ++ [(uid, incremented)]
    if incremented.1 > 5 then (none, { st with rate := rate1 })
    else
      let afterPrevDelete : List (String × Nat × Int) :=
        match liveUserTok st uid now with
        | some prev => st.tokUser.filter fun e => e.1 ≠ prev
        | none => st.tokUser
      (some freshToken,
        { rate := rate1,
          userTok := (st.userTok.filter fun e => e.1 ≠ uid) ++
            [(uid, freshToken, now + expSecs)],
          tokUser := (afterPrevDelete.filter fun e => e.1 ≠ freshToken) ++
            [(freshToken, uid, now + expSecs)] })

/-- Redis-branch body of `AuthService.reset_password`: reject an unknown or
expired token with `invalid_token`, reject a missing user record, else
delete both keys and set the user's password to the hash of the new one. -/
def reset_password (st : ResetStore) (token new_password : String) (now : Int)
    (getUser : Nat → Option UserRec) : Except String (UserRec × ResetStore) :=
  match liveTokUser st token now with
  | none => Except.error "invalid_token"
  | some uid =>
    match getUser uid with
    | none => Except.error "user_not_found"
    | some user =>
      let st1 : ResetStore :=
        { st with
            tokUser := st.tokUser.filter (fun e => e.1 ≠ token),
            userTok := st.userTok.filter (fun e => e.1 ≠ user.user_id) }
      Except.ok ({ user with password := hash_password new_password }, st1)

/-! Shared helper lemmas. -/

/-- The function `find?` skips a prefix on which the predicate fails. -/
theorem find?_append_of_none {α : Type _} (p : α → Bool) (l1 l2 : List α)
    (h : ∀ x ∈ l1, p x = false) : (l1 ++ l2).find? p = l2.find? p := by
  rw [List.find?_append, List.find?_eq_none.mpr fun x hx => by simp [h x hx]]
  rfl

/-- The helper `_clear_cached_decisions` only touches the cache: flag and enforcer
survive. -/
theorem clear_cached_decisions_enforcer (st : RbacState) :
    (clear_cached_decisions st).enforcer = st.enforcer ∧
    (clear_cached_decisions st).policiesLoaded = st.policiesLoaded ∧
    (clear_cached_decisions st).hasRedis = st.hasRedis := by
  unfold clear_cached_decisions
  split <;> exact ⟨rfl, rfl, rfl⟩

/-- On every path, `reload_policies` leaves the cache exactly as the
initial invalidation left it. -/
theorem reload_cache_eq (store : FactStore) (st : RbacState) :
    (reload_policies store st).1.cache = (clear_cached_decisions st).cache := by
  unfold reload_policies
  cases store.rolePermRows with
  | error e => rfl
  | ok a =>
    cases store.userRoleRows with
    | error e => rfl
    | ok b => rfl

/-- The operation `reload_policies` never changes whether redis is attached. -/
theorem reload_hasRedis_eq (store : FactStore) (st : RbacState) :
    (reload_policies store st).1.hasRedis = st.hasRedis := by
  unfold reload_policies
  cases store.rolePermRows with
  | error e => exact (clear_cached_decisions_enforcer st).2.2
  | ok a =>
    cases store.userRoleRows with
    | error e => exact (clear_cached_decisions_enforcer st).2.2
    | ok b => exact (clear_cached_decisions_enforcer st).2.2

/-- A successful reload sets the flag, reports no error, and rebuilds the
model from scratch out of the two fact lists. -/
theorem reload_ok (store : FactStore) (st : RbacState)
    (rpRows : List RolePermFact) (urRows : List UserRoleFact)
    (hrp : store.rolePermRows = Except.ok rpRows)
    (hur : store.userRoleRows = Except.ok urRows) :
    (reload_policies store st).1.policiesLoaded = true ∧
    (reload_policies store st).2.2 = none ∧
    (reload_policies store st).1.enforcer =
      load_user_roles (load_role_permissions ⟨[], []⟩ rpRows) urRows := by
  unfold reload_policies
  rw [hrp, hur]
  exact ⟨rfl, rfl, rfl⟩

/-- After invalidation (with redis attached) no decision key survives in
the cache. -/
theorem clear_cached_decisions_no_decision (st : RbacState)
    (hredis : st.hasRedis = true) :
    ∀ c ∈ (clear_cached_decisions st).cache, isDecisionKey c.key = false := by
  unfold clear_cached_decisions
  rw [if_pos hredis]
  intro c hc
  have := List.of_mem_filter hc
  simpa using this

/-- A `GET` of a decision key misses on a cache holding no decision keys. -/
theorem cacheGet_none_of_no_decision (cache : List CacheEntry) (u org : Nat)
    (perm act : String) (now : Int)
    (h : ∀ c ∈ cache, isDecisionKey c.key = false) :
    cacheGet cache (RKey.decision u org perm act) now = none := by
  unfold cacheGet
  rw [List.find?_eq_none.mpr ?_]
  intro c hc
  have hck := h c hc
  simp only [Bool.and_eq_true, decide_eq_true_eq, not_and]
  intro hk
  rw [hk] at hck
  simp [isDecisionKey] at hck

/-- Loading role-permission rows adds only `p` rules: groupings untouched. -/
theorem load_role_permissions_groupings (rows : List RolePermFact) (e : Enforcer) :
    (load_role_permissions e rows).groupings = e.groupings := by
  induction rows generalizing e with
  | nil => rfl
  | cons f rest ih =>
    show (load_role_permissions
        (e.add_policy ⟨f.roleId, f.permName, f.orgId, "access"⟩) rest).groupings =
      e.groupings
    rw [ih]
    unfold Enforcer.add_policy
    split <;> rfl

/-- One user-role loop step leaves the `p` rules untouched. -/
theorem user_role_step_policies (e : Enforcer) (f : UserRoleFact) :
    (user_role_step e f).policies = e.policies := by
  unfold user_role_step
  cases f.roleId with
  | none => rfl
  | some r =>
    show (e.add_grouping_policy ⟨f.userId, r, f.orgId⟩).policies = e.policies
    unfold Enforcer.add_grouping_policy
    split <;> rfl

/-- A grouping present after one user-role loop step either was already
there or is the row's own grouping. -/
theorem user_role_step_mem (e : Enforcer) (f : UserRoleFact) (g : GroupingRule)
    (h : g ∈ (user_role_step e f).groupings) :
    g ∈ e.groupings ∨
      (f.userId = g.userId ∧ f.roleId = some g.roleId ∧ f.orgId = g.orgId) := by
  unfold user_role_step at h
  cases hro : f.roleId with
  | none =>
    rw [hro] at h
    exact Or.inl h
  | some r =>
    rw [hro] at h
    have h' : g ∈ (e.add_grouping_policy ⟨f.userId, r, f.orgId⟩).groupings := h
    unfold Enforcer.add_grouping_policy at h'
    by_cases hmem : (⟨f.userId, r, f.orgId⟩ : GroupingRule) ∈ e.groupings
    · rw [if_pos hmem] at h'
      exact Or.inl h'
    · rw [if_neg hmem] at h'
      rcases List.mem_append.mp h' with hin | hnew
      · exact Or.inl hin
      · have hgr : g = ⟨f.userId, r, f.orgId⟩ := List.mem_singleton.mp hnew
        subst hgr
        exact Or.inr ⟨rfl, rfl, rfl⟩

/-- Loading user-role rows adds only `g` rules: policies untouched. -/
theorem load_user_roles_policies (rows : List UserRoleFact) (e : Enforcer) :
    (load_user_roles e rows).policies = e.policies := by
  unfold load_user_roles
  generalize rows.filter (fun f => f.roleId ≠ none) = l
  induction l generalizing e with
  | nil => rfl
  | cons f rest ih =>
    simp only [List.foldl_cons]
    rw [ih, user_role_step_policies]

/-- Every grouping present after `_load_user_roles` either was already in
the model or comes from a loaded user-role row with a non-null role. -/
theorem mem_groupings_load_user_roles (rows : List UserRoleFact) (e : Enforcer)
    (g : GroupingRule) (hg : g ∈ (load_user_roles e rows).groupings) :
    g ∈ e.groupings ∨
      ∃ f ∈ rows, f.userId = g.userId ∧ f.roleId = some g.roleId ∧
        f.orgId = g.orgId := by
  unfold load_user_roles at hg
  have main : ∀ (l : List UserRoleFact) (e : Enforcer),
      g ∈ (l.foldl user_role_step e).groupings →
      g ∈ e.groupings ∨
        ∃ f ∈ l, f.userId = g.userId ∧ f.roleId = some g.roleId ∧
          f.orgId = g.orgId := by
    intro l
    induction l with
    | nil => intro e h; exact Or.inl h
    | cons f rest ih =>
      intro e h
      simp only [List.foldl_cons] at h
      rcases ih _ h with hbase | ⟨f', hf', hprop⟩
      · rcases user_role_step_mem e f g hbase with hin | hrow
        · exact Or.inl hin
        · exact Or.inr ⟨f, List.mem_cons_self f rest, hrow⟩
      · exact Or.inr ⟨f', List.mem_cons_of_mem f hf', hprop⟩
  rcases main _ e hg with h | ⟨f, hf, hprop⟩
  · exact Or.inl h
  · exact Or.inr ⟨f, (List.mem_filter.mp hf).1, hprop⟩

/-- A user with no grouping inside the organization is denied by the
matcher, whatever the permission and action. -/
theorem enforce_false_of_no_grouping (e : Enforcer) (u org : Nat)
    (perm act : String)
    (h : ∀ g ∈ e.groupings, ¬(g.userId = u ∧ g.orgId = org)) :
    e.enforce u perm org act = false := by
  unfold Enforcer.enforce
  rw [List.any_eq_false]
  intro g hg
  have hh := h g hg
  simp only [Bool.and_eq_true, beq_iff_eq, not_and]
  intro h1 h2
  exact absurd ⟨h1.1, h1.2⟩ hh

/-- A user with no grouping inside the organization has no roles there. -/
theorem roles_nil_of_no_grouping (e : Enforcer) (u org : Nat)
    (h : ∀ g ∈ e.groupings, ¬(g.userId = u ∧ g.orgId = org)) :
    e.get_roles_for_user_in_domain u org = [] := by
  unfold Enforcer.get_roles_for_user_in_domain
  have : e.groupings.filter (fun g => g.userId == u && g.orgId == org) = [] := by
    rw [List.filter_eq_nil_iff]
    intro g hg
    have hh := h g hg
    simp only [Bool.and_eq_true, beq_iff_eq]
    intro hcon
    exact hh hcon
  rw [this]
  rfl

/-- Field-wise equality of enforcers. -/
theorem Enforcer.eq_of_fields {e e' : Enforcer} (h1 : e.policies = e'.policies)
    (h2 : e.groupings = e'.groupings) : e = e' := by
  cases e
  cases e'
  cases h1
  cases h2
  rfl

/-- The policies after `add_policy`, spelled out. -/
theorem add_policy_policies (e : Enforcer) (p : PolicyRule) :
    (e.add_policy p).policies =
      if p ∈ e.policies then e.policies else e.policies ++ [p] := by
  unfold Enforcer.add_policy
  split <;> rfl

/-- The operation `add_policy` leaves the groupings untouched. -/
theorem add_policy_groupings (e : Enforcer) (p : PolicyRule) :
    (e.add_policy p).groupings = e.groupings := by
  unfold Enforcer.add_policy
  split <;> rfl

/-- Appending one policy scoped to a different organization does not change
the matcher's verdict: the appended rule fails the domain test. -/
theorem enforce_snoc_other_org (P : List PolicyRule) (G : List GroupingRule)
    (pol : PolicyRule) (u : Nat) (q : String) (org : Nat) (a : String)
    (hne : pol.orgId ≠ org) :
    Enforcer.enforce ⟨P ++ [pol], G⟩ u q org a =
      Enforcer.enforce ⟨P, G⟩ u q org a := by
  have hfalse : (pol.orgId == org) = false := by
    exact beq_eq_false_iff_ne.mpr hne
  unfold Enforcer.enforce
  simp only [List.any_append, List.any_cons, List.any_nil, hfalse,
    Bool.and_false, Bool.false_and, Bool.or_false]

/-- The operation `add_policy` with a rule scoped to a different organization does not
change the matcher's verdict. -/
theorem enforce_add_policy_other_org (e : Enforcer) (pol : PolicyRule)
    (u : Nat) (q : String) (org : Nat) (a : String) (hne : pol.orgId ≠ org) :
    (e.add_policy pol).enforce u q org a = e.enforce u q org a := by
  unfold Enforcer.add_policy
  split
  · rfl
  · exact enforce_snoc_other_org e.policies e.groupings pol u q org a hne

/-- The groupings produced by `_load_user_roles` depend only on the
starting groupings, not on the policies alongside them. -/
theorem load_user_roles_groupings_congr (rows : List UserRoleFact)
    (e e' : Enforcer) (h : e.groupings = e'.groupings) :
    (load_user_roles e rows).groupings = (load_user_roles e' rows).groupings := by
  unfold load_user_roles
  generalize rows.filter (fun f => f.roleId ≠ none) = l
  induction l generalizing e e' with
  | nil => exact h
  | cons f rest ih =>
    simp only [List.foldl_cons]
    apply ih
    unfold user_role_step
    cases hro : f.roleId with
    | none => exact h
    | some r =>
      show (Enforcer.add_grouping_policy e ⟨f.userId, r, f.orgId⟩).groupings =
        (Enforcer.add_grouping_policy e' ⟨f.userId, r, f.orgId⟩).groupings
      unfold Enforcer.add_grouping_policy
      by_cases hmem : (⟨f.userId, r, f.orgId⟩ : GroupingRule) ∈ e.groupings
      · have hmem' : (⟨f.userId, r, f.orgId⟩ : GroupingRule) ∈ e'.groupings := h ▸ hmem
        rw [if_pos hmem, if_pos hmem']
        exact h
      · have hmem' : (⟨f.userId, r, f.orgId⟩ : GroupingRule) ∉ e'.groupings := by
          rw [← h]
          exact hmem
        rw [if_neg hmem, if_neg hmem']
        simp [h]

/-- Loading a fact list extended by one row equals loading the list and
then adding that row's policy. -/
theorem load_role_permissions_append_single (e : Enforcer)
    (rows : List RolePermFact) (f : RolePermFact) :
    load_role_permissions e (rows ++ [f]) =
      (load_role_permissions e rows).add_policy
        ⟨f.roleId, f.permName, f.orgId, "access"⟩ := by
  unfold load_role_permissions
  rw [List.foldl_append]
  rfl

/-- On a state freshly produced by a successful reload, `enforce` always
evaluates the casbin model (exactly one evaluation, no cache hit) and
returns its verdict. -/
theorem enforce_after_reload (store : FactStore) (st0 st : RbacState)
    (rpRows : List RolePermFact) (urRows : List UserRoleFact)
    (hrp : store.rolePermRows = Except.ok rpRows)
    (hur : store.userRoleRows = Except.ok urRows)
    (hst : st = (reload_policies store st0).1)
    (now : Int) (u : Nat) (perm : String) (org : Nat) (act : String) :
    (st.enforce store now u perm org act).map EnforceResult.decision =
      Except.ok (st.enforcer.enforce u perm org act) ∧
    (st.enforce store now u perm org act).map EnforceResult.evalCount =
      Except.ok 1 := by
  have hflag : st.policiesLoaded = true := by
    rw [hst]
    exact (reload_ok store st0 rpRows urRows hrp hur).1
  have hRedisEq : st.hasRedis = st0.hasRedis := by
    rw [hst]
    exact reload_hasRedis_eq store st0
  have hcache : st.cache = (clear_cached_decisions st0).cache := by
    rw [hst]
    exact reload_cache_eq store st0
  have hens : ensure_policies_loaded store st = (st, none) := by
    unfold ensure_policies_loaded
    rw [if_pos hflag]
  simp only [RbacState.enforce, hens]
  by_cases hR : st.hasRedis = true
  · rw [if_pos hR]
    have hget : cacheGet st.cache (RKey.decision u org perm act) now = none := by
      apply cacheGet_none_of_no_decision
      intro c hc
      rw [hcache] at hc
      exact clear_cached_decisions_no_decision st0 (hRedisEq ▸ hR) c hc
    rw [hget]
    exact ⟨rfl, rfl⟩
  · rw [if_neg hR]
    exact ⟨rfl, rfl⟩

/-- After `SET ... ex=60` at `t1`, a `GET` of the same key before `t1 + 60`
returns the stored value. -/
theorem cacheGet_after_setEx (cache : List CacheEntry) (key : RKey) (v : Bool)
    (t1 t2 : Int) (h : t2 < t1 + 60) :
    cacheGet (cacheSetEx cache key v 60 t1) key t2 = some v := by
  have hfind : (cacheSetEx cache key v 60 t1).find?
      (fun c => decide (c.key = key) && decide (t2 < c.expiresAt)) =
      some ⟨key, v, t1 + 60⟩ := by
    unfold cacheSetEx
    rw [find?_append_of_none]
    · rw [List.find?_cons_of_pos]
      simp [h]
    · intro c hc
      have hne := (List.mem_filter.mp hc).2
      simp only [decide_eq_true_eq] at hne
      simp [hne]
  unfold cacheGet
  rw [hfind]

/-! Claim theorems. -/

/-- C4: `reload_policies` first deletes all cached decision entries, then
clears the in-memory policy model, then repopulates it from the
role-permission facts and the user-role facts, and only then sets the
policies-loaded flag; cache invalidation precedes the model swap on every
path, including failing ones. The final state carries exactly the
invalidated cache (no reader can have re-populated it inside the reload),
the model rebuilt from scratch out of the two fact lists, and the flag set. -/
theorem reload_policies_step_order (store : FactStore) (st : RbacState)
    (rpRows : List RolePermFact) (urRows : List UserRoleFact)
    (hrp : store.rolePermRows = Except.ok rpRows)
    (hur : store.userRoleRows = Except.ok urRows) :
    (reload_policies store st).2.1 =
      [ReloadEvent.cacheInvalidated, ReloadEvent.policyCleared,
        ReloadEvent.rolePermsLoaded, ReloadEvent.userRolesLoaded,
        ReloadEvent.loadedFlagSet] ∧
    (reload_policies store st).1.policiesLoaded = true ∧
    (reload_policies store st).1.enforcer =
      load_user_roles (load_role_permissions ⟨[], []⟩ rpRows) urRows ∧
    (reload_policies store st).1.cache = (clear_cached_decisions st).cache ∧
    (∀ s : FactStore, (reload_policies s st).2.1.take 2 =
      [ReloadEvent.cacheInvalidated, ReloadEvent.policyCleared]) := by
  refine ⟨?_, ?_, ?_, ?_, ?_⟩
  · unfold reload_policies
    rw [hrp, hur]
  · unfold reload_policies
    rw [hrp, hur]
  · unfold reload_policies
    rw [hrp, hur]
    simp [Enforcer.clear_policy]
  · unfold reload_policies
    rw [hrp, hur]
  · intro s
    unfold reload_policies
    cases hs : s.rolePermRows with
    | error e => rfl
    | ok rows =>
      cases hs2 : s.userRoleRows with
      | error e => rfl
      | ok rows2 => rfl

/-- C4 witness: concrete instantiation — one role-permission fact, one
user-role fact, no redis. -/
theorem reload_policies_step_order_witness :
    (reload_policies
        ⟨Except.ok [⟨1, "doc.write", 1⟩], Except.ok [⟨7, some 1, 1⟩]⟩
        ⟨⟨[], []⟩, false, [], false⟩).2.1 =
      [ReloadEvent.cacheInvalidated, ReloadEvent.policyCleared,
        ReloadEvent.rolePermsLoaded, ReloadEvent.userRolesLoaded,
        ReloadEvent.loadedFlagSet] :=
  (reload_policies_step_order
      ⟨Except.ok [⟨1, "doc.write", 1⟩], Except.ok [⟨7, some 1, 1⟩]⟩
      ⟨⟨[], []⟩, false, [], false⟩
      [⟨1, "doc.write", 1⟩] [⟨7, some 1, 1⟩] rfl rfl).1

/-- C2: a user with no role assigned inside a given organization — every
user-role fact for that user in that organization has a null `role_id`
(in particular when there is no such fact at all) — is denied by `enforce`
for every permission, action and time, and `get_user_permissions` returns
the empty list, on any state freshly produced by a successful
`reload_policies`. -/
theorem no_role_in_org_denies_everything (store : FactStore) (st0 st : RbacState)
    (rpRows : List RolePermFact) (urRows : List UserRoleFact)
    (hrp : store.rolePermRows = Except.ok rpRows)
    (hur : store.userRoleRows = Except.ok urRows)
    (hst : st = (reload_policies store st0).1)
    (u org : Nat)
    (hnorole : ∀ f ∈ urRows, f.userId = u → f.orgId = org → f.roleId = none) :
    (∀ perm act, st.enforcer.enforce u perm org act = false) ∧
    (∀ now perm act,
      (st.enforce store now u perm org act).map EnforceResult.decision =
        Except.ok false) ∧
    (st.get_user_permissions store u org).map Prod.fst = Except.ok [] := by
  have henf : st.enforcer =
      load_user_roles (load_role_permissions ⟨[], []⟩ rpRows) urRows := by
    rw [hst]
    exact (reload_ok store st0 rpRows urRows hrp hur).2.2
  have hG : ∀ g ∈ st.enforcer.groupings, ¬(g.userId = u ∧ g.orgId = org) := by
    intro g hg hcon
    rw [henf] at hg
    rcases mem_groupings_load_user_roles urRows _ g hg with hbase | ⟨f, hf, hfu, hfr, hfo⟩
    · rw [load_role_permissions_groupings] at hbase
      exact absurd hbase (List.not_mem_nil g)
    · have hnone := hnorole f hf (hfu.trans hcon.1) (hfo.trans hcon.2)
      rw [hnone] at hfr
      exact Option.noConfusion hfr
  have hflag : st.policiesLoaded = true := by
    rw [hst]
    exact (reload_ok store st0 rpRows urRows hrp hur).1
  have hRedisEq : st.hasRedis = st0.hasRedis := by
    rw [hst]
    exact reload_hasRedis_eq store st0
  have hcache : st.cache = (clear_cached_decisions st0).cache := by
    rw [hst]
    exact reload_cache_eq store st0
  have hens : ensure_policies_loaded store st = (st, none) := by
    unfold ensure_policies_loaded
    rw [if_pos hflag]
  refine ⟨fun perm act => enforce_false_of_no_grouping _ _ _ _ _ hG, ?_, ?_⟩
  · intro now perm act
    simp only [RbacState.enforce, hens]
    by_cases hR : st.hasRedis = true
    · rw [if_pos hR]
      have hget : cacheGet st.cache (RKey.decision u org perm act) now = none := by
        apply cacheGet_none_of_no_decision
        intro c hc
        rw [hcache] at hc
        exact clear_cached_decisions_no_decision st0 (hRedisEq ▸ hR) c hc
      rw [hget]
      simp [Except.map, enforce_false_of_no_grouping _ _ _ _ _ hG]
    · rw [if_neg hR]
      simp [Except.map, enforce_false_of_no_grouping _ _ _ _ _ hG]
  · simp only [RbacState.get_user_permissions, hens]
    rw [roles_nil_of_no_grouping _ _ _ hG]
    simp [Except.map]

/-- C2 witness: a loaded store granting `doc.write` to role 1 in org 1 and
assigning role 1 to user 7 there — user 9 holds no role, is denied, and has
no permissions. -/
theorem no_role_in_org_denies_everything_witness :
    (((reload_policies
          ⟨Except.ok [⟨1, "doc.write", 1⟩], Except.ok [⟨7, some 1, 1⟩]⟩
          ⟨⟨[], []⟩, false, [], true⟩).1.enforce
        ⟨Except.ok [⟨1, "doc.write", 1⟩], Except.ok [⟨7, some 1, 1⟩]⟩
        0 9 "doc.write" 1 "access").map EnforceResult.decision =
      Except.ok false) ∧
    (((reload_policies
          ⟨Except.ok [⟨1, "doc.write", 1⟩], Except.ok [⟨7, some 1, 1⟩]⟩
          ⟨⟨[], []⟩, false, [], true⟩).1.get_user_permissions
        ⟨Except.ok [⟨1, "doc.write", 1⟩], Except.ok [⟨7, some 1, 1⟩]⟩
        9 1).map Prod.fst = Except.ok []) :=
  ⟨(no_role_in_org_denies_everything
      ⟨Except.ok [⟨1, "doc.write", 1⟩], Except.ok [⟨7, some 1, 1⟩]⟩
      ⟨⟨[], []⟩, false, [], true⟩ _ [⟨1, "doc.write", 1⟩] [⟨7, some 1, 1⟩]
      rfl rfl rfl 9 1 (by decide)).2.1 0 "doc.write" "access",
   (no_role_in_org_denies_everything
      ⟨Except.ok [⟨1, "doc.write", 1⟩], Except.ok [⟨7, some 1, 1⟩]⟩
      ⟨⟨[], []⟩, false, [], true⟩ _ [⟨1, "doc.write", 1⟩] [⟨7, some 1, 1⟩]
      rfl rfl rfl 9 1 (by decide)).2.2⟩

/-- C3: cross-tenant isolation — extending the role-permission facts by one
grant scoped to organization `A` never changes the verdict of `enforce` for
organization `B ≠ A`: neither at the policy-engine level nor through the
service (freshly reloaded on both sides), whatever roles or ids the user
holds in `B`, even ones colliding with the granted role's id. -/
theorem cross_tenant_isolation (store store' : FactStore)
    (st0 st0' st st' : RbacState)
    (rpRows : List RolePermFact) (urRows : List UserRoleFact)
    (f : RolePermFact) (A B : Nat) (hA : f.orgId = A) (hAB : A ≠ B)
    (hrp : store.rolePermRows = Except.ok rpRows)
    (hur : store.userRoleRows = Except.ok urRows)
    (hrp' : store'.rolePermRows = Except.ok (rpRows ++ [f]))
    (hur' : store'.userRoleRows = Except.ok urRows)
    (hst : st = (reload_policies store st0).1)
    (hst' : st' = (reload_policies store' st0').1) :
    (∀ u q act, st'.enforcer.enforce u q B act = st.enforcer.enforce u q B act) ∧
    (∀ now now' u q act,
      (st'.enforce store' now' u q B act).map EnforceResult.decision =
        (st.enforce store now u q B act).map EnforceResult.decision) := by
  have henf : st.enforcer =
      load_user_roles (load_role_permissions ⟨[], []⟩ rpRows) urRows := by
    rw [hst]
    exact (reload_ok store st0 rpRows urRows hrp hur).2.2
  have henf' : st'.enforcer =
      load_user_roles (load_role_permissions ⟨[], []⟩ (rpRows ++ [f])) urRows := by
    rw [hst']
    exact (reload_ok store' st0' _ urRows hrp' hur').2.2
  have hsnoc : load_role_permissions ⟨[], []⟩ (rpRows ++ [f]) =
      (load_role_permissions ⟨[], []⟩ rpRows).add_policy
        ⟨f.roleId, f.permName, f.orgId, "access"⟩ :=
    load_role_permissions_append_single ⟨[], []⟩ rpRows f
  have hengine : ∀ u q act,
      st'.enforcer.enforce u q B act = st.enforcer.enforce u q B act := by
    intro u q act
    have hYpol : st.enforcer.policies =
        (load_role_permissions ⟨[], []⟩ rpRows).policies := by
      rw [henf, load_user_roles_policies]
    have hXpol : st'.enforcer.policies =
        ((load_role_permissions ⟨[], []⟩ rpRows).add_policy
          ⟨f.roleId, f.permName, f.orgId, "access"⟩).policies := by
      rw [henf', hsnoc, load_user_roles_policies]
    have hXgr : st'.enforcer.groupings = st.enforcer.groupings := by
      rw [henf', hsnoc, henf]
      exact load_user_roles_groupings_congr urRows _ _
        (add_policy_groupings (load_role_permissions ⟨[], []⟩ rpRows)
          ⟨f.roleId, f.permName, f.orgId, "access"⟩)
    have hX : st'.enforcer =
        st.enforcer.add_policy ⟨f.roleId, f.permName, f.orgId, "access"⟩ := by
      apply Enforcer.eq_of_fields
      · rw [hXpol, add_policy_policies, add_policy_policies, hYpol]
      · rw [hXgr, add_policy_groupings]
    rw [hX]
    apply enforce_add_policy_other_org
    show f.orgId ≠ B
    rw [hA]
    exact hAB
  refine ⟨hengine, ?_⟩
  intro now now' u q act
  rw [(enforce_after_reload store' st0' st' _ urRows hrp' hur' hst' now' u q B act).1,
    (enforce_after_reload store st0 st rpRows urRows hrp hur hst now u q B act).1,
    hengine u q act]

/-- C3 witness: role id 1 exists in both org 1 and org 2 (users 7 and 8);
granting `doc.write` to role 1 scoped to org 1 leaves user 8's check in
org 2 unchanged. -/
theorem cross_tenant_isolation_witness :
    (reload_policies
        ⟨Except.ok [⟨1, "doc.write", 1⟩],
          Except.ok [⟨7, some 1, 1⟩, ⟨8, some 1, 2⟩]⟩
        ⟨⟨[], []⟩, false, [], true⟩).1.enforcer.enforce 8 "doc.write" 2 "access" =
      (reload_policies
        ⟨Except.ok ([] : List RolePermFact),
          Except.ok [⟨7, some 1, 1⟩, ⟨8, some 1, 2⟩]⟩
        ⟨⟨[], []⟩, false, [], true⟩).1.enforcer.enforce 8 "doc.write" 2 "access" :=
  (cross_tenant_isolation
      ⟨Except.ok ([] : List RolePermFact),
        Except.ok [⟨7, some 1, 1⟩, ⟨8, some 1, 2⟩]⟩
      ⟨Except.ok [⟨1, "doc.write", 1⟩],
        Except.ok [⟨7, some 1, 1⟩, ⟨8, some 1, 2⟩]⟩
      ⟨⟨[], []⟩, false, [], true⟩ ⟨⟨[], []⟩, false, [], true⟩ _ _
      [] [⟨7, some 1, 1⟩, ⟨8, some 1, 2⟩] ⟨1, "doc.write", 1⟩ 1 2
      rfl (by decide) rfl rfl rfl rfl rfl rfl).1 8 "doc.write" "access"

/-- C5: with redis attached, facts unchanged (flag loaded, no reload
between the calls), and no live cached entry yet, the first `enforce`
evaluates the model exactly once and stores the decision under the key
`rbac:decision:{user}:{org}:{perm}:{action}` with a 60-second TTL; a second
call with the same arguments inside the TTL window is a cache hit (zero
evaluations) returning the same boolean — so the pair of calls performs
one evaluation in total. After `invalidate_cache`, the next `enforce`
re-evaluates instead of serving a cached decision. -/
theorem decision_cache_correctness (st : RbacState) (store : FactStore)
    (u org : Nat) (perm act : String) (t1 t2 : Int)
    (hredis : st.hasRedis = true) (hloaded : st.policiesLoaded = true)
    (hmiss : cacheGet st.cache (RKey.decision u org perm act) t1 = none)
    (h12 : t1 ≤ t2) (h60 : t2 < t1 + 60) :
    renderKey (RKey.decision u org perm act) =
      "rbac:decision:" ++ toString u ++ ":" ++ toString org ++ ":" ++
        perm ++ ":" ++ act ∧
    (∃ r1, st.enforce store t1 u perm org act = Except.ok r1 ∧
      r1.evalCount = 1 ∧
      r1.decision = st.enforcer.enforce u perm org act ∧
      (⟨RKey.decision u org perm act, r1.decision, t1 + 60⟩ : CacheEntry) ∈
        r1.state.cache ∧
      ∃ r2, RbacState.enforce r1.state store t2 u perm org act = Except.ok r2 ∧
        r2.evalCount = 0 ∧ r2.decision = r1.decision) ∧
    (∀ rpRows urRows, store.rolePermRows = Except.ok rpRows →
      store.userRoleRows = Except.ok urRows →
      ∀ now, ((invalidate_cache st).enforce store now u perm org act).map
        EnforceResult.evalCount = Except.ok 1) := by
  have hens : ensure_policies_loaded store st = (st, none) := by
    unfold ensure_policies_loaded
    rw [if_pos hloaded]
  refine ⟨rfl, ?_, ?_⟩
  · refine ⟨⟨st.enforcer.enforce u perm org act,
      { st with cache := (cacheSetEx st.cache (RKey.decision u org perm act)
          (st.enforcer.enforce u perm org act) 60 t1) }, 1⟩, ?_, rfl, rfl, ?_, ?_⟩
    · simp only [RbacState.enforce, hens]
      rw [if_pos hredis, hmiss]
    · show _ ∈ cacheSetEx st.cache (RKey.decision u org perm act) _ 60 t1
      unfold cacheSetEx
      exact List.mem_append_right _ (List.mem_singleton_self _)
    · have hens1 : ensure_policies_loaded store
          { st with cache := (cacheSetEx st.cache (RKey.decision u org perm act)
              (st.enforcer.enforce u perm org act) 60 t1) } =
          ({ st with cache := (cacheSetEx st.cache (RKey.decision u org perm act)
              (st.enforcer.enforce u perm org act) 60 t1) }, none) := by
        unfold ensure_policies_loaded
        rw [if_pos (show st.policiesLoaded = true from hloaded)]
      refine ⟨⟨st.enforcer.enforce u perm org act,
        { st with cache := (cacheSetEx st.cache (RKey.decision u org perm act)
            (st.enforcer.enforce u perm org act) 60 t1) }, 0⟩, ?_, rfl, rfl⟩
      simp only [RbacState.enforce, hens1]
      rw [if_pos (show st.hasRedis = true from hredis),
        cacheGet_after_setEx st.cache (RKey.decision u org perm act) _ t1 t2 h60]
  · intro rpRows urRows hrp hur now
    have hflag : (invalidate_cache st).policiesLoaded = false := by
      unfold invalidate_cache
      exact (clear_cached_decisions_enforcer { st with policiesLoaded := false }).2.1
    have hinvredis : (invalidate_cache st).hasRedis = true := by
      unfold invalidate_cache
      rw [(clear_cached_decisions_enforcer { st with policiesLoaded := false }).2.2]
      exact hredis
    have hensInv : ensure_policies_loaded store (invalidate_cache st) =
        ((reload_policies store (invalidate_cache st)).1,
          (reload_policies store (invalidate_cache st)).2.2) := by
      unfold ensure_policies_loaded
      rw [if_neg (by rw [hflag]; exact Bool.false_ne_true)]
    have herr : (reload_policies store (invalidate_cache st)).2.2 = none :=
      (reload_ok store (invalidate_cache st) rpRows urRows hrp hur).2.1
    simp only [RbacState.enforce, hensInv, herr]
    have hRredis : (reload_policies store (invalidate_cache st)).1.hasRedis = true := by
      rw [reload_hasRedis_eq]
      exact hinvredis
    rw [if_pos hRredis]
    have hget : cacheGet (reload_policies store (invalidate_cache st)).1.cache
        (RKey.decision u org perm act) now = none := by
      apply cacheGet_none_of_no_decision
      intro c hc
      rw [reload_cache_eq] at hc
      exact clear_cached_decisions_no_decision (invalidate_cache st) hinvredis c hc
    rw [hget]
    rfl

/-- C5 witness: empty cache, loaded flag set, redis attached; calls at
times 0 and 59 within the 60-second TTL window. -/
theorem decision_cache_correctness_witness :
    renderKey (RKey.decision 1 2 "doc.write" "access") =
      "rbac:decision:" ++ toString (1 : Nat) ++ ":" ++ toString (2 : Nat) ++
        ":" ++ "doc.write" ++ ":" ++ "access" ∧
    (∃ r1, RbacState.enforce ⟨⟨[], []⟩, true, [], true⟩
        ⟨Except.ok [], Except.ok []⟩ 0 1 "doc.write" 2 "access" =
          Except.ok r1 ∧
      r1.evalCount = 1 ∧
      r1.decision =
        Enforcer.enforce ⟨[], []⟩ 1 "doc.write" 2 "access" ∧
      (⟨RKey.decision 1 2 "doc.write" "access", r1.decision, 0 + 60⟩ :
        CacheEntry) ∈ r1.state.cache ∧
      ∃ r2, RbacState.enforce r1.state ⟨Except.ok [], Except.ok []⟩
          59 1 "doc.write" 2 "access" = Except.ok r2 ∧
        r2.evalCount = 0 ∧ r2.decision = r1.decision) ∧
    (∀ rpRows urRows,
      (⟨Except.ok [], Except.ok []⟩ : FactStore).rolePermRows =
        Except.ok rpRows →
      (⟨Except.ok [], Except.ok []⟩ : FactStore).userRoleRows =
        Except.ok urRows →
      ∀ now, ((invalidate_cache ⟨⟨[], []⟩, true, [], true⟩).enforce
        ⟨Except.ok [], Except.ok []⟩ now 1 "doc.write" 2 "access").map
          EnforceResult.evalCount = Except.ok 1) :=
  decision_cache_correctness ⟨⟨[], []⟩, true, [], true⟩
    ⟨Except.ok [], Except.ok []⟩ 1 2 "doc.write" "access" 0 59
    rfl rfl rfl (by decide) (by decide)

/-- C1 counterexample: the claim says a mid-reload store failure leaves the
previous in-memory policy model intact. It does not: `reload_policies`
clears the casbin model before running the fallible queries, so when the
role-permission query raises, a previously loaded model (here one policy
and one grouping rule) has already been wiped. -/
theorem reload_failure_clears_model_cex :
    (reload_policies ⟨Except.error (), Except.ok []⟩
        ⟨⟨[⟨1, "doc.write", 1, "access"⟩], [⟨7, 1, 1⟩]⟩, true, [], false⟩).1.enforcer ≠
      ⟨[⟨1, "doc.write", 1, "access"⟩], [⟨7, 1, 1⟩]⟩ := by
  decide

/-- C1 (amended): if the fact store raises during the role-permission or
user-role query, the failure is surfaced to the caller as a reload-failed
error and the policies-loaded flag keeps its prior value — but the previous
in-memory model is not left intact: it has already been cleared, and when
the user-role query is the one that fails, the role-permission rules have
already been repopulated, leaving a partially loaded model. -/
theorem reload_policies_failure_state (store : FactStore) (st : RbacState) :
    (store.rolePermRows = Except.error () →
      (reload_policies store st).2.2 = some "reload_failed" ∧
      (reload_policies store st).1.policiesLoaded = st.policiesLoaded ∧
      (reload_policies store st).1.enforcer = ⟨[], []⟩) ∧
    (∀ rpRows, store.rolePermRows = Except.ok rpRows →
      store.userRoleRows = Except.error () →
      (reload_policies store st).2.2 = some "reload_failed" ∧
      (reload_policies store st).1.policiesLoaded = st.policiesLoaded ∧
      (reload_policies store st).1.enforcer =
        load_role_permissions ⟨[], []⟩ rpRows) := by
  constructor
  · intro hrp
    unfold reload_policies
    rw [hrp]
    exact ⟨rfl, (clear_cached_decisions_enforcer st).2.1, rfl⟩
  · intro rpRows hrp hur
    unfold reload_policies
    rw [hrp, hur]
    refine ⟨rfl, (clear_cached_decisions_enforcer st).2.1, ?_⟩
    simp [Enforcer.clear_policy]

/-- C1 witness: concrete failing store — the error is surfaced, the flag
keeps its prior value (`true`), and the model has been cleared rather than
left intact. -/
theorem reload_policies_failure_state_witness :
    (reload_policies ⟨Except.error (), Except.ok []⟩
        ⟨⟨[⟨1, "doc.write", 1, "access"⟩], [⟨7, 1, 1⟩]⟩, true, [], false⟩).2.2 =
      some "reload_failed" ∧
    (reload_policies ⟨Except.error (), Except.ok []⟩
        ⟨⟨[⟨1, "doc.write", 1, "access"⟩], [⟨7, 1, 1⟩]⟩, true, [], false⟩).1.policiesLoaded =
      true ∧
    (reload_policies ⟨Except.error (), Except.ok []⟩
        ⟨⟨[⟨1, "doc.write", 1, "access"⟩], [⟨7, 1, 1⟩]⟩, true, [], false⟩).1.enforcer =
      ⟨[], []⟩ :=
  (reload_policies_failure_state ⟨Except.error (), Except.ok []⟩
      ⟨⟨[⟨1, "doc.write", 1, "access"⟩], [⟨7, 1, 1⟩]⟩, true, [], false⟩).1 rfl

/-- Inversion for `get_current_principal`: a successful resolution pins
down the whole path — present and parseable `sub`, present `session_id`, an
existing session matching the subject, unrevoked, with a live refresh
window, and an existing user record; the principal is built from the user
record and the session row. -/
theorem gcp_ok_inv (p : TokenPayload) (gs : Nat → Option UserLogin)
    (gu : Nat → Option UserRec) (now : Int) (pr : Principal)
    (hok : get_current_principal (Except.ok p) gs gu now = Except.ok pr) :
    ∃ subject uid sid srec urec,
      p.sub = some subject ∧ subject.toNat? = some uid ∧
      p.session_id = some sid ∧ gs sid = some srec ∧
      srec.user_id = uid ∧ srec.revoked_at = none ∧
      ¬(srec.refresh_token_expires_at < now) ∧ gu uid = some urec ∧
      pr = ⟨urec.user_id, srec.login_id, urec.organization_id, urec.role_id,
        urec.status, urec.username, p, p⟩ := by
  unfold get_current_principal at hok
  cases hs1 : p.sub with
  | none =>
    simp only [hs1] at hok
    exact absurd hok (by simp)
  | some subject =>
    cases hsd : p.session_id with
    | none =>
      simp only [hs1, hsd] at hok
      exact absurd hok (by simp)
    | some sid =>
      simp only [hs1, hsd] at hok
      cases hnat : subject.toNat? with
      | none =>
        simp only [hnat] at hok
        exact absurd hok (by simp)
      | some uid =>
        simp only [hnat] at hok
        cases hgs : gs sid with
        | none =>
          simp only [hgs] at hok
          exact absurd hok (by simp)
        | some srec =>
          simp only [hgs] at hok
          by_cases hmis : srec.user_id ≠ uid
          · rw [if_pos hmis] at hok
            exact absurd hok (by simp)
          · rw [if_neg hmis] at hok
            by_cases hrev : srec.revoked_at ≠ none
            · rw [if_pos hrev] at hok
              exact absurd hok (by simp)
            · rw [if_neg hrev] at hok
              by_cases hexp : srec.refresh_token_expires_at < now
              · rw [if_pos hexp] at hok
                exact absurd hok (by simp)
              · rw [if_neg hexp] at hok
                cases hgu : gu uid with
                | none =>
                  simp only [hgu] at hok
                  exact absurd hok (by simp)
                | some urec =>
                  simp only [hgu] at hok
                  exact ⟨subject, uid, sid, srec, urec, rfl, hnat, rfl, hgs,
                    not_not.mp hmis, not_ne_iff.mp hrev, hexp, hgu,
                    (Except.ok.inj hok).symm⟩

/-- A token bound to a revoked session never resolves to a principal. -/
theorem gcp_rejects_revoked (decoded : Except Unit TokenPayload)
    (gs : Nat → Option UserLogin) (gu : Nat → Option UserRec) (now : Int)
    (sid : Nat) (s : UserLogin) (hgs : gs sid = some s)
    (hrev : s.revoked_at ≠ none)
    (hbound : ∀ p, decoded = Except.ok p → p.session_id = some sid) :
    (get_current_principal decoded gs gu now).isOk = false := by
  cases hres : get_current_principal decoded gs gu now with
  | error e => rfl
  | ok pr =>
    exfalso
    cases decoded with
    | error e => simp [get_current_principal] at hres
    | ok p =>
      have hsid := hbound p rfl
      obtain ⟨subject, uid, sid', srec, urec, _, _, hsid', hgs', _, hnone, _, _, _⟩ :=
        gcp_ok_inv p gs gu now pr hres
      obtain rfl : sid' = sid := Option.some.inj (hsid'.symm.trans hsid)
      obtain rfl : srec = s := Option.some.inj (hgs'.symm.trans hgs)
      exact hrev hnone

/-- C7: bearer-token resolution rejects with an unauthenticated outcome in
exactly the listed situations — failed signature/expiry verification of the
token, missing `sub` or `session_id` claim (or an unparseable subject),
missing session, session/subject user-id mismatch, revoked session, elapsed
refresh window (even though the access token itself decoded fine), or
missing user record — and otherwise constructs the principal from the user
record and session row. -/
theorem principal_resolution_cases (gs : Nat → Option UserLogin)
    (gu : Nat → Option UserRec) (now : Int) :
    (∀ e : Unit, get_current_principal (Except.error e) gs gu now =
      Except.error "invalid_token") ∧
    (∀ p : TokenPayload, p.sub = none →
      get_current_principal (Except.ok p) gs gu now =
        Except.error "invalid_token_payload") ∧
    (∀ (p : TokenPayload) subject, p.sub = some subject → p.session_id = none →
      get_current_principal (Except.ok p) gs gu now =
        Except.error "invalid_token_payload") ∧
    (∀ (p : TokenPayload) subject sid, p.sub = some subject →
      p.session_id = some sid → subject.toNat? = none →
      get_current_principal (Except.ok p) gs gu now =
        Except.error "invalid_token_payload") ∧
    (∀ (p : TokenPayload) subject sid uid, p.sub = some subject →
      p.session_id = some sid → subject.toNat? = some uid → gs sid = none →
      get_current_principal (Except.ok p) gs gu now =
        Except.error "session_not_found") ∧
    (∀ (p : TokenPayload) subject sid uid s, p.sub = some subject →
      p.session_id = some sid → subject.toNat? = some uid → gs sid = some s →
      s.user_id ≠ uid →
      get_current_principal (Except.ok p) gs gu now =
        Except.error "session_not_found") ∧
    (∀ (p : TokenPayload) subject sid uid s, p.sub = some subject →
      p.session_id = some sid → subject.toNat? = some uid → gs sid = some s →
      s.user_id = uid → s.revoked_at ≠ none →
      get_current_principal (Except.ok p) gs gu now =
        Except.error "session_revoked") ∧
    (∀ (p : TokenPayload) subject sid uid s, p.sub = some subject →
      p.session_id = some sid → subject.toNat? = some uid → gs sid = some s →
      s.user_id = uid → s.revoked_at = none →
      s.refresh_token_expires_at < now →
      get_current_principal (Except.ok p) gs gu now =
        Except.error "session_expired") ∧
    (∀ (p : TokenPayload) subject sid uid s, p.sub = some subject →
      p.session_id = some sid → subject.toNat? = some uid → gs sid = some s →
      s.user_id = uid → s.revoked_at = none →
      ¬(s.refresh_token_expires_at < now) → gu uid = none →
      get_current_principal (Except.ok p) gs gu now =
        Except.error "user_not_found") ∧
    (∀ (p : TokenPayload) subject sid uid s urec, p.sub = some subject →
      p.session_id = some sid → subject.toNat? = some uid → gs sid = some s →
      s.user_id = uid → s.revoked_at = none →
      ¬(s.refresh_token_expires_at < now) → gu uid = some urec →
      get_current_principal (Except.ok p) gs gu now =
        Except.ok ⟨urec.user_id, s.login_id, urec.organization_id,
          urec.role_id, urec.status, urec.username, p, p⟩) := by
  refine ⟨fun e => rfl, ?_, ?_, ?_, ?_, ?_, ?_, ?_, ?_, ?_⟩
  · intro p hsub
    unfold get_current_principal
    simp only [hsub]
  · intro p subject hsub hsid
    unfold get_current_principal
    simp only [hsub, hsid]
  · intro p subject sid hsub hsid hnat
    unfold get_current_principal
    simp only [hsub, hsid, hnat]
  · intro p subject sid uid hsub hsid hnat hgs
    unfold get_current_principal
    simp only [hsub, hsid, hnat, hgs]
  · intro p subject sid uid s hsub hsid hnat hgs hmis
    unfold get_current_principal
    simp only [hsub, hsid, hnat, hgs]
    rw [if_pos hmis]
  · intro p subject sid uid s hsub hsid hnat hgs huid hrev
    unfold get_current_principal
    simp only [hsub, hsid, hnat, hgs]
    rw [if_neg (by simp [huid]), if_pos hrev]
  · intro p subject sid uid s hsub hsid hnat hgs huid hrevnone hexp
    unfold get_current_principal
    simp only [hsub, hsid, hnat, hgs]
    rw [if_neg (by simp [huid]), if_neg (by simp [hrevnone]), if_pos hexp]
  · intro p subject sid uid s hsub hsid hnat hgs huid hrevnone hexp hgu
    unfold get_current_principal
    simp only [hsub, hsid, hnat, hgs]
    rw [if_neg (by simp [huid]), if_neg (by simp [hrevnone]), if_neg hexp]
    simp only [hgu]
  · intro p subject sid uid s urec hsub hsid hnat hgs huid hrevnone hexp hgu
    unfold get_current_principal
    simp only [hsub, hsid, hnat, hgs]
    rw [if_neg (by simp [huid]), if_neg (by simp [hrevnone]), if_neg hexp]
    simp only [hgu]

/-- C7 witness: a fully valid token (subject 7, session 1) against a store
with the matching live session and user record resolves to the principal
built from the user record. -/
theorem principal_resolution_cases_witness :
    get_current_principal
      (Except.ok ⟨some "7", 0, some "alice", some 1, some (some 2), none, some 1⟩)
      (fun n => if n = 1 then
        some ⟨1, 7, 0, "h", 100, none, none, none, none⟩ else none)
      (fun n => if n = 7 then
        some ⟨7, "alice", "pw", 3, some 4, "active"⟩ else none)
      50 =
      Except.ok ⟨7, 1, 3, some 4, "active", "alice",
        ⟨some "7", 0, some "alice", some 1, some (some 2), none, some 1⟩,
        ⟨some "7", 0, some "alice", some 1, some (some 2), none, some 1⟩⟩ :=
  (principal_resolution_cases
      (fun n => if n = 1 then
        some ⟨1, 7, 0, "h", 100, none, none, none, none⟩ else none)
      (fun n => if n = 7 then
        some ⟨7, "alice", "pw", 3, some 4, "active"⟩ else none)
      50).2.2.2.2.2.2.2.2.2
    ⟨some "7", 0, some "alice", some 1, some (some 2), none, some 1⟩
    "7" 1 7 ⟨1, 7, 0, "h", 100, none, none, none, none⟩
    ⟨7, "alice", "pw", 3, some 4, "active"⟩
    rfl rfl
    (by simp [String.toNat?, String.isNat, String.foldl_eq, String.all_eq] <;> decide)
    rfl rfl rfl (by decide) rfl

/-- C9: revoking an already-revoked session only re-stamps `revoked_at` —
`login_id` (the session id) and `user_id` are unchanged, `revoked_at` stays
non-null — and a token bound to that session is still rejected by principal
resolution afterwards. -/
theorem revoke_session_idempotent (s : UserLogin) (t2 : Int)
    (hprev : s.revoked_at ≠ none) :
    (revoke_session s t2).login_id = s.login_id ∧
    (revoke_session s t2).user_id = s.user_id ∧
    (revoke_session s t2).revoked_at = some t2 ∧
    (∀ (decoded : Except Unit TokenPayload) (gs : Nat → Option UserLogin)
      (gu : Nat → Option UserRec) (now : Int) (sid : Nat),
      gs sid = some (revoke_session s t2) →
      (∀ p, decoded = Except.ok p → p.session_id = some sid) →
      (get_current_principal decoded gs gu now).isOk = false) := by
  refine ⟨rfl, rfl, rfl, ?_⟩
  intro decoded gs gu now sid hgs hbound
  exact gcp_rejects_revoked decoded gs gu now sid _ hgs
    (by simp [revoke_session]) hbound

/-- C9 witness: a session revoked at time 3 is revoked again at time 9;
ids are unchanged and a token bound to it is still rejected. -/
theorem revoke_session_idempotent_witness :
    (revoke_session (⟨1, 7, 0, "h", 100, some 3, none, none, none⟩ : UserLogin)
        9).login_id = 1 ∧
    (revoke_session (⟨1, 7, 0, "h", 100, some 3, none, none, none⟩ : UserLogin)
        9).user_id = 7 ∧
    (get_current_principal
      (Except.ok ⟨some "7", 0, none, none, none, none, some 1⟩)
      (fun n => if n = 1 then
        some (revoke_session ⟨1, 7, 0, "h", 100, some 3, none, none, none⟩ 9)
        else none)
      (fun _ => none) 50).isOk = false :=
  ⟨(revoke_session_idempotent ⟨1, 7, 0, "h", 100, some 3, none, none, none⟩ 9
      (by decide)).1,
   (revoke_session_idempotent ⟨1, 7, 0, "h", 100, some 3, none, none, none⟩ 9
      (by decide)).2.1,
   (revoke_session_idempotent ⟨1, 7, 0, "h", 100, some 3, none, none, none⟩ 9
      (by decide)).2.2.2
     (Except.ok ⟨some "7", 0, none, none, none, none, some 1⟩)
     (fun n => if n = 1 then
       some (revoke_session ⟨1, 7, 0, "h", 100, some 3, none, none, none⟩ 9)
       else none)
     (fun _ => none) 50 1 rfl (fun p hp => by cases hp; rfl)⟩

/-- C10: the principal's identity fields (`user_id`, `session_id`,
`organization_id`, `role_id`, `status`, `username`) come from the current
user record and session row, not from the token's claims: two payloads
agreeing on `sub` and `session_id` — whatever their `organization_id` or
`role_id` claims say — resolve to identical identity fields (only
`token_payload`/`raw_token` can differ), and on success those fields equal
the looked-up user record's. -/
theorem principal_identity_from_user_record (p1 p2 : TokenPayload)
    (gs : Nat → Option UserLogin) (gu : Nat → Option UserRec) (now : Int)
    (hsub : p1.sub = p2.sub) (hsid : p1.session_id = p2.session_id) :
    ((get_current_principal (Except.ok p1) gs gu now).map
        (fun pr => (pr.user_id, pr.session_id, pr.organization_id, pr.role_id,
          pr.status, pr.username)) =
      (get_current_principal (Except.ok p2) gs gu now).map
        (fun pr => (pr.user_id, pr.session_id, pr.organization_id, pr.role_id,
          pr.status, pr.username))) ∧
    (∀ pr, get_current_principal (Except.ok p1) gs gu now = Except.ok pr →
      ∃ uid urec,
        (∃ subject, p1.sub = some subject ∧ subject.toNat? = some uid) ∧
        gu uid = some urec ∧
        pr.user_id = urec.user_id ∧ pr.organization_id = urec.organization_id ∧
        pr.role_id = urec.role_id ∧ pr.status = urec.status ∧
        pr.username = urec.username) := by
  constructor
  · unfold get_current_principal
    cases hs1 : p1.sub with
    | none =>
      have hp2 : p2.sub = none := hsub.symm.trans hs1
      simp [hs1, hp2]
    | some subject =>
      have hp2 : p2.sub = some subject := hsub.symm.trans hs1
      cases hsd : p1.session_id with
      | none =>
        have hq2 : p2.session_id = none := hsid.symm.trans hsd
        simp [hs1, hsd, hp2, hq2]
      | some sid =>
        have hq2 : p2.session_id = some sid := hsid.symm.trans hsd
        simp only [hs1, hsd, hp2, hq2]
        cases hnat : subject.toNat? with
        | none => simp [hnat]
        | some uid =>
          simp only [hnat]
          cases hgs : gs sid with
          | none => simp [hgs]
          | some srec =>
            simp only [hgs]
            by_cases hmis : srec.user_id ≠ uid
            · rw [if_pos hmis, if_pos hmis]
            · rw [if_neg hmis, if_neg hmis]
              by_cases hrev : srec.revoked_at ≠ none
              · rw [if_pos hrev, if_pos hrev]
              · rw [if_neg hrev, if_neg hrev]
                by_cases hexp : srec.refresh_token_expires_at < now
                · rw [if_pos hexp, if_pos hexp]
                · rw [if_neg hexp, if_neg hexp]
                  cases hgu : gu uid with
                  | none => simp [hgu]
                  | some urec => simp [hgu, Except.map]
  · intro pr hok
    obtain ⟨subject, uid, sid, srec, urec, h1, h2, h3, h4, h5, h6, h7, h8, h9⟩ :=
      gcp_ok_inv p1 gs gu now pr hok
    subst h9
    exact ⟨uid, urec, ⟨subject, h1, h2⟩, h8, rfl, rfl, rfl, rfl, rfl⟩

/-- C10 witness: two tokens for subject 7 / session 1 whose
`organization_id` and `role_id` claims disagree (99/`some 50` versus
3/`some 4`) resolve to the same identity fields. -/
theorem principal_identity_from_user_record_witness :
    (get_current_principal
        (Except.ok ⟨some "7", 0, some "alice", some 99, some (some 50), none,
          some 1⟩)
        (fun n => if n = 1 then
          some ⟨1, 7, 0, "h", 100, none, none, none, none⟩ else none)
        (fun n => if n = 7 then
          some ⟨7, "alice", "pw", 3, some 4, "active"⟩ else none)
        50).map
      (fun pr => (pr.user_id, pr.session_id, pr.organization_id, pr.role_id,
        pr.status, pr.username)) =
    (get_current_principal
        (Except.ok ⟨some "7", 0, some "bob", some 3, some (some 4), none,
          some 1⟩)
        (fun n => if n = 1 then
          some ⟨1, 7, 0, "h", 100, none, none, none, none⟩ else none)
        (fun n => if n = 7 then
          some ⟨7, "alice", "pw", 3, some 4, "active"⟩ else none)
        50).map
      (fun pr => (pr.user_id, pr.session_id, pr.organization_id, pr.role_id,
        pr.status, pr.username)) :=
  (principal_identity_from_user_record
      ⟨some "7", 0, some "alice", some 99, some (some 50), none, some 1⟩
      ⟨some "7", 0, some "bob", some 3, some (some 4), none, some 1⟩
      (fun n => if n = 1 then
        some ⟨1, 7, 0, "h", 100, none, none, none, none⟩ else none)
      (fun n => if n = 7 then
        some ⟨7, "alice", "pw", 3, some 4, "active"⟩ else none)
      50 rfl rfl).1

/-- The bcrypt model is injective: distinct tokens have distinct hashes, so
a verify against the rotated hash fails for the superseded token. -/
theorem hash_password_injective (a b : String)
    (h : hash_password a = hash_password b) : a = b := by
  unfold hash_password at h
  have hd := congrArg String.data h
  simp only [String.data_append] at hd
  exact String.ext (List.append_cancel_left hd)

/-- C6: `refresh_session` fails with `session_revoked` when `revoked_at` is
set, with `refresh_expired` when the refresh window has passed, and with
`invalid_refresh_token` when the presented token does not match the stored
hash; on success it replaces the stored hash with that of the brand-new
refresh token, sets the expiry to now plus the refresh TTL, stamps
`last_refreshed_at`, returns a fresh access token — and a subsequent
`refresh_session` presenting the old token (within the new window) fails
with `invalid_refresh_token`: refresh tokens are single-use. -/
theorem refresh_session_spec (settings : Settings) (s : UserLogin)
    (tok newTok : String) (now : Int) (ip ua : Option String)
    (getUser : Nat → Option UserRec) (email : Option String) :
    (s.revoked_at ≠ none →
      refresh_session settings s tok now newTok ip ua getUser email =
        Except.error "session_revoked") ∧
    (s.revoked_at = none → s.refresh_token_expires_at < now →
      refresh_session settings s tok now newTok ip ua getUser email =
        Except.error "refresh_expired") ∧
    (s.revoked_at = none → ¬(s.refresh_token_expires_at < now) →
      s.refresh_token_hash ≠ hash_password tok →
      refresh_session settings s tok now newTok ip ua getUser email =
        Except.error "invalid_refresh_token") ∧
    (∀ urec, s.revoked_at = none → ¬(s.refresh_token_expires_at < now) →
      s.refresh_token_hash = hash_password tok →
      getUser s.user_id = some urec →
      ∃ s1 res,
        refresh_session settings s tok now newTok ip ua getUser email =
          Except.ok (s1, res) ∧
        s1.refresh_token_hash = hash_password newTok ∧
        s1.refresh_token_expires_at =
          now + settings.jwt_refresh_token_expires_minutes * 60 ∧
        s1.last_refreshed_at = some now ∧
        s1.login_id = s.login_id ∧ s1.user_id = s.user_id ∧
        s1.revoked_at = none ∧
        res.refresh_token = newTok ∧
        res.refresh_token_expires_at = s1.refresh_token_expires_at ∧
        res.access_token =
          (issue_token settings urec email (some s.login_id) now).1 ∧
        res.access_token_expires_minutes =
          settings.jwt_access_token_expires_minutes ∧
        (newTok ≠ tok →
          ∀ (now2 : Int) (newTok2 : String) (ip2 ua2 : Option String)
            (getUser2 : Nat → Option UserRec) (email2 : Option String),
          ¬(s1.refresh_token_expires_at < now2) →
          refresh_session settings s1 tok now2 newTok2 ip2 ua2 getUser2
              email2 = Except.error "invalid_refresh_token")) := by
  refine ⟨?_, ?_, ?_, ?_⟩
  · intro hrev
    unfold refresh_session
    rw [if_pos hrev]
  · intro hrev hexp
    unfold refresh_session
    rw [if_neg (by simp [hrev]), if_pos hexp]
  · intro hrev hexp hne
    unfold refresh_session
    rw [if_neg (by simp [hrev]), if_neg hexp,
      if_pos (by simp [verify_password, hne])]
  · intro urec hrev hexp hmatch hgu
    unfold refresh_session
    rw [if_neg (by simp [hrev]), if_neg hexp,
      if_neg (by simp [verify_password, hmatch])]
    simp only [hgu]
    refine ⟨_, _, rfl, rfl, rfl, rfl, rfl, rfl, hrev, rfl, rfl, rfl, rfl, ?_⟩
    intro hne now2 newTok2 ip2 ua2 getUser2 email2 hexp2
    rw [if_neg (by simp [hrev]), if_neg hexp2, if_pos ?_]
    simp only [verify_password, beq_iff_eq]
    intro hcon
    exact hne (hash_password_injective newTok tok hcon)

/-- C6 witness: a revoked session is rejected; an active session whose
stored hash matches the presented token rotates to the new token, extends
the expiry to `50 + 60 * 60`, stamps `last_refreshed_at = 50`, and the old
token is rejected on the next refresh. -/
theorem refresh_session_spec_witness :
    (refresh_session ⟨15, 60, 30⟩
        ⟨1, 7, 0, hash_password "old", 100, some 3, none, none, none⟩
        "old" 50 "new" none none (fun _ => none) none =
      Except.error "session_revoked") ∧
    (∃ s1 res,
      refresh_session ⟨15, 60, 30⟩
          ⟨1, 7, 0, hash_password "old", 100, none, none, none, none⟩
          "old" 50 "new"
          none none
          (fun n => if n = 7 then
            some ⟨7, "alice", "pw", 3, some 4, "active"⟩ else none)
          (some "a@b.c") =
        Except.ok (s1, res) ∧
      s1.refresh_token_hash = hash_password "new" ∧
      s1.refresh_token_expires_at = 50 + 60 * 60 ∧
      s1.last_refreshed_at = some 50 ∧
      s1.login_id = 1 ∧ s1.user_id = 7 ∧
      s1.revoked_at = none ∧
      res.refresh_token = "new" ∧
      res.refresh_token_expires_at = s1.refresh_token_expires_at ∧
      res.access_token =
        (issue_token ⟨15, 60, 30⟩ ⟨7, "alice", "pw", 3, some 4, "active"⟩
          (some "a@b.c") (some 1) 50).1 ∧
      res.access_token_expires_minutes = 15 ∧
      (refresh_session ⟨15, 60, 30⟩ s1 "old" 60 "newer" none none
          (fun _ => none) none = Except.error "invalid_refresh_token")) := by
  constructor
  · exact (refresh_session_spec ⟨15, 60, 30⟩
      ⟨1, 7, 0, hash_password "old", 100, some 3, none, none, none⟩
      "old" "new" 50 none none (fun _ => none) none).1 (by decide)
  · obtain ⟨s1, res, h1, h2, h3, h4, h5, h6, h7, h8, h9, h10, h11, h12⟩ :=
      (refresh_session_spec ⟨15, 60, 30⟩
        ⟨1, 7, 0, hash_password "old", 100, none, none, none, none⟩
        "old" "new" 50 none none
        (fun n => if n = 7 then
          some ⟨7, "alice", "pw", 3, some 4, "active"⟩ else none)
        (some "a@b.c")).2.2.2
      ⟨7, "alice", "pw", 3, some 4, "active"⟩ rfl (by decide) rfl rfl
    refine ⟨s1, res, h1, h2, by rw [h3]; norm_num, h4, h5, h6, h7, h8, h9, h10,
      h11, ?_⟩
    apply h12 (by decide) 60 "newer" none none (fun _ => none) none
    rw [h3]
    norm_num
/-- A `find?`-by-key lookup on a list where all other entries under the key
were filtered away and one fresh entry was appended finds that entry. -/
theorem lookup_replace {κ V : Type} [BEq κ] [LawfulBEq κ] [DecidableEq κ]
    (l : List (κ × V)) (key : κ) (v : V) :
    ((l.filter fun x => x.1 ≠ key) ++ [(key, v)]).find?
      (fun x => x.1 == key) = some (key, v) := by
  rw [find?_append_of_none]
  · simp [List.find?]
  · intro x hx
    have hne := (List.mem_filter.mp hx).2
    simp only [decide_eq_true_eq] at hne
    simp [hne]

/-- Reading the rate counter of a store whose rate list has the replaced
shape. -/
theorem liveRate_shape (st : ResetStore) (base : List (Nat × Nat × Int))
    (uid c : Nat) (e t : Int)
    (hrate : st.rate = (base.filter fun x => x.1 ≠ uid) ++ [(uid, c, e)]) :
    liveRate st uid t = if t < e then some (c, e) else none := by
  unfold liveRate
  rw [hrate, lookup_replace]

/-- Reading the per-user current token of a store whose userTok list has
the replaced shape. -/
theorem liveUserTok_shape (st : ResetStore) (base : List (Nat × String × Int))
    (uid : Nat) (k : String) (e t : Int)
    (hu : st.userTok = (base.filter fun x => x.1 ≠ uid) ++ [(uid, k, e)]) :
    liveUserTok st uid t = if t < e then some k else none := by
  unfold liveUserTok
  rw [hu, lookup_replace]

/-- A token lookup misses when every entry under that token has expired. -/
theorem liveTokUser_none_of (st : ResetStore) (tok : String) (t : Int)
    (h : ∀ x ∈ st.tokUser, x.1 = tok → ¬(t < x.2.2)) :
    liveTokUser st tok t = none := by
  unfold liveTokUser
  cases hf : st.tokUser.find? (fun x => x.1 == tok) with
  | none => rfl
  | some x =>
    have hpred := List.find?_some hf
    have hmem := List.mem_of_find?_eq_some hf
    have hkey : x.1 = tok := by simpa using hpred
    show (if t < x.2.2 then some x.2.1 else none) = none
    rw [if_neg (h x hmem hkey)]

/-- One issuance against a live rate counter `c`: the token comes out iff
the incremented count stays within 5, and the counter becomes `c + 1` with
its window untouched. -/
theorem create_rate_spec_some (settings : Settings) (st : ResetStore)
    (uid : Nat) (now : Int) (k : String) (c : Nat) (e : Int)
    (hm : liveRate st uid now = some (c, e)) :
    ((create_password_reset_token settings st (some uid) now k).1 =
      if c + 1 > 5 then none else some k) ∧
    (create_password_reset_token settings st (some uid) now k).2.rate =
      (st.rate.filter fun x => x.1 ≠ uid) ++ [(uid, c + 1, e)] := by
  unfold create_password_reset_token
  simp only [hm]
  constructor
  · by_cases h5 : c + 1 > 5
    · rw [if_pos h5, if_pos h5]
    · rw [if_neg h5, if_neg h5]
  · by_cases h5 : c + 1 > 5
    · rw [if_pos h5]
    · rw [if_neg h5]

/-- One issuance with no live rate counter: the token comes out and a fresh
counter at 1 with a one-hour window is installed. -/
theorem create_rate_spec_none (settings : Settings) (st : ResetStore)
    (uid : Nat) (now : Int) (k : String)
    (hm : liveRate st uid now = none) :
    (create_password_reset_token settings st (some uid) now k).1 = some k ∧
    (create_password_reset_token settings st (some uid) now k).2.rate =
      (st.rate.filter fun x => x.1 ≠ uid) ++ [(uid, 1, now + 3600)] := by
  unfold create_password_reset_token
  simp only [hm]
  constructor
  · rw [if_neg (by norm_num)]
  · rw [if_neg (by norm_num)]

/-- Inversion of a successful issuance: the returned token is the fresh
one; the user's current-token key now maps to it; and the token-key list is
the old one minus the previously outstanding token (when its key was still
live) and minus any entry under the fresh token, plus the fresh binding. -/
theorem create_ok_inv (settings : Settings) (st : ResetStore) (uid : Nat)
    (now : Int) (k tok : String) (s' : ResetStore)
    (h : create_password_reset_token settings st (some uid) now k =
      (some tok, s')) :
    tok = k ∧
    s'.userTok = (st.userTok.filter fun x => x.1 ≠ uid) ++
      [(uid, k, now + (settings.password_reset_token_expires_minutes : Int) * 60)] ∧
    s'.tokUser =
      (((match liveUserTok st uid now with
          | some prev => st.tokUser.filter fun x => x.1 ≠ prev
          | none => st.tokUser : List (String × Nat × Int))).filter
            fun x => x.1 ≠ k) ++
        [(k, uid, now + (settings.password_reset_token_expires_minutes : Int) * 60)] := by
  unfold create_password_reset_token at h
  cases hm : liveRate st uid now with
  | none =>
    simp only [hm] at h
    rw [if_neg (by norm_num), Prod.mk.injEq] at h
    obtain ⟨hfst, hsnd⟩ := h
    have h1 : tok = k := (Option.some.inj hfst).symm
    subst hsnd
    exact ⟨h1, rfl, rfl⟩
  | some ce =>
    simp only [hm] at h
    by_cases h5 : ce.1 + 1 > 5
    · rw [if_pos h5] at h
      exact absurd (congrArg Prod.fst h) (by simp)
    · rw [if_neg h5, Prod.mk.injEq] at h
      obtain ⟨hfst, hsnd⟩ := h
      have h1 : tok = k := (Option.some.inj hfst).symm
      subst hsnd
      exact ⟨h1, rfl, rfl⟩

/-- C8: redis-backed password-reset issuance is rate-limited per user —
starting with no live rate counter, six requests for the same account
inside one hour yield tokens for the first five and `none` for the sixth —
and issuing a new token supersedes the previous outstanding one: consuming
the older token afterwards is rejected with `invalid_token`. -/
theorem password_reset_rate_limit_and_rotation (settings : Settings) :
    (∀ (st : ResetStore) (uid : Nat) (t1 t2 t3 t4 t5 t6 : Int)
      (k1 k2 k3 k4 k5 k6 : String) (r1 r2 r3 r4 r5 r6 : Option String)
      (s1 s2 s3 s4 s5 s6 : ResetStore),
      liveRate st uid t1 = none →
      t1 ≤ t2 → t2 ≤ t3 → t3 ≤ t4 → t4 ≤ t5 → t5 ≤ t6 → t6 < t1 + 3600 →
      create_password_reset_token settings st (some uid) t1 k1 = (r1, s1) →
      create_password_reset_token settings s1 (some uid) t2 k2 = (r2, s2) →
      create_password_reset_token settings s2 (some uid) t3 k3 = (r3, s3) →
      create_password_reset_token settings s3 (some uid) t4 k4 = (r4, s4) →
      create_password_reset_token settings s4 (some uid) t5 k5 = (r5, s5) →
      create_password_reset_token settings s5 (some uid) t6 k6 = (r6, s6) →
      r1 = some k1 ∧ r2 = some k2 ∧ r3 = some k3 ∧ r4 = some k4 ∧
        r5 = some k5 ∧ r6 = none) ∧
    (∀ (st : ResetStore) (uid : Nat) (t1 t2 t : Int) (k1 k2 np : String)
      (s1 s2 : ResetStore) (gu : Nat → Option UserRec),
      k1 ≠ k2 → t1 ≤ t2 → t2 ≤ t →
      create_password_reset_token settings st (some uid) t1 k1 = (some k1, s1) →
      create_password_reset_token settings s1 (some uid) t2 k2 = (some k2, s2) →
      reset_password s2 k1 np t gu = Except.error "invalid_token") := by
  constructor
  · intro st uid t1 t2 t3 t4 t5 t6 k1 k2 k3 k4 k5 k6 r1 r2 r3 r4 r5 r6
      s1 s2 s3 s4 s5 s6 h0 h12 h23 h34 h45 h56 h6b H1 H2 H3 H4 H5 H6
    obtain ⟨hr1, hrate1⟩ := create_rate_spec_none settings st uid t1 k1 h0
    have hR1 : r1 = some k1 := (congrArg Prod.fst H1).symm.trans hr1
    have hs1 : s1.rate = (st.rate.filter fun x => x.1 ≠ uid) ++
        [(uid, 1, t1 + 3600)] :=
      (congrArg (fun p => p.2.rate) H1).symm.trans hrate1
    have hlive1 : liveRate s1 uid t2 = some (1, t1 + 3600) := by
      rw [liveRate_shape s1 st.rate uid 1 (t1 + 3600) t2 hs1,
        if_pos (by omega)]
    obtain ⟨hr2, hrate2⟩ :=
      create_rate_spec_some settings s1 uid t2 k2 1 (t1 + 3600) hlive1
    rw [if_neg (by norm_num)] at hr2
    have hR2 : r2 = some k2 := (congrArg Prod.fst H2).symm.trans hr2
    have hs2 : s2.rate = (s1.rate.filter fun x => x.1 ≠ uid) ++
        [(uid, 1 + 1, t1 + 3600)] :=
      (congrArg (fun p => p.2.rate) H2).symm.trans hrate2
    have hlive2 : liveRate s2 uid t3 = some (1 + 1, t1 + 3600) := by
      rw [liveRate_shape s2 s1.rate uid (1 + 1) (t1 + 3600) t3 hs2,
        if_pos (by omega)]
    obtain ⟨hr3, hrate3⟩ :=
      create_rate_spec_some settings s2 uid t3 k3 (1 + 1) (t1 + 3600) hlive2
    rw [if_neg (by norm_num)] at hr3
    have hR3 : r3 = some k3 := (congrArg Prod.fst H3).symm.trans hr3
    have hs3 : s3.rate = (s2.rate.filter fun x => x.1 ≠ uid) ++
        [(uid, 1 + 1 + 1, t1 + 3600)] :=
      (congrArg (fun p => p.2.rate) H3).symm.trans hrate3
    have hlive3 : liveRate s3 uid t4 = some (1 + 1 + 1, t1 + 3600) := by
      rw [liveRate_shape s3 s2.rate uid (1 + 1 + 1) (t1 + 3600) t4 hs3,
        if_pos (by omega)]
    obtain ⟨hr4, hrate4⟩ :=
      create_rate_spec_some settings s3 uid t4 k4 (1 + 1 + 1) (t1 + 3600) hlive3
    rw [if_neg (by norm_num)] at hr4
    have hR4 : r4 = some k4 := (congrArg Prod.fst H4).symm.trans hr4
    have hs4 : s4.rate = (s3.rate.filter fun x => x.1 ≠ uid) ++
        [(uid, 1 + 1 + 1 + 1, t1 + 3600)] :=
      (congrArg (fun p => p.2.rate) H4).symm.trans hrate4
    have hlive4 : liveRate s4 uid t5 = some (1 + 1 + 1 + 1, t1 + 3600) := by
      rw [liveRate_shape s4 s3.rate uid (1 + 1 + 1 + 1) (t1 + 3600) t5 hs4,
        if_pos (by omega)]
    obtain ⟨hr5, hrate5⟩ :=
      create_rate_spec_some settings s4 uid t5 k5 (1 + 1 + 1 + 1) (t1 + 3600)
        hlive4
    rw [if_neg (by norm_num)] at hr5
    have hR5 : r5 = some k5 := (congrArg Prod.fst H5).symm.trans hr5
    have hs5 : s5.rate = (s4.rate.filter fun x => x.1 ≠ uid) ++
        [(uid, 1 + 1 + 1 + 1 + 1, t1 + 3600)] :=
      (congrArg (fun p => p.2.rate) H5).symm.trans hrate5
    have hlive5 : liveRate s5 uid t6 = some (1 + 1 + 1 + 1 + 1, t1 + 3600) := by
      rw [liveRate_shape s5 s4.rate uid (1 + 1 + 1 + 1 + 1) (t1 + 3600) t6 hs5,
        if_pos (by omega)]
    obtain ⟨hr6, hrate6⟩ :=
      create_rate_spec_some settings s5 uid t6 k6 (1 + 1 + 1 + 1 + 1)
        (t1 + 3600) hlive5
    rw [if_pos (by norm_num)] at hr6
    have hR6 : r6 = none := (congrArg Prod.fst H6).symm.trans hr6
    exact ⟨hR1, hR2, hR3, hR4, hR5, hR6⟩
  · intro st uid t1 t2 t k1 k2 np s1 s2 gu hk h12 h2t H1 H2
    obtain ⟨-, hu1, htk1⟩ := create_ok_inv settings st uid t1 k1 k1 s1 H1
    obtain ⟨-, hu2, htk2⟩ := create_ok_inv settings s1 uid t2 k2 k2 s2 H2
    have hlu1 : liveUserTok s1 uid t2 =
        if t2 < t1 + (settings.password_reset_token_expires_minutes : Int) * 60
        then some k1 else none :=
      liveUserTok_shape s1 st.userTok uid k1
        (t1 + (settings.password_reset_token_expires_minutes : Int) * 60) t2 hu1
    have hs1tok : ∀ x ∈ s1.tokUser, x.1 = k1 →
        x = (k1, uid,
          t1 + (settings.password_reset_token_expires_minutes : Int) * 60) := by
      intro x hx hxk
      rw [htk1] at hx
      rcases List.mem_append.mp hx with hin | hone
      · have hne := (List.mem_filter.mp hin).2
        simp only [decide_eq_true_eq] at hne
        exact absurd hxk hne
      · exact List.mem_singleton.mp hone
    have hdead : ∀ x ∈ s2.tokUser, x.1 = k1 → ¬(t < x.2.2) := by
      by_cases hlive : t2 <
          t1 + (settings.password_reset_token_expires_minutes : Int) * 60
      · have hprev : liveUserTok s1 uid t2 = some k1 := by
          rw [hlu1, if_pos hlive]
        simp only [hprev] at htk2
        intro x hx hxk
        rw [htk2] at hx
        rcases List.mem_append.mp hx with hin | hone
        · have hin1 := (List.mem_filter.mp hin).1
          have hne := (List.mem_filter.mp hin1).2
          simp only [decide_eq_true_eq] at hne
          exact absurd hxk hne
        · have hx2 := List.mem_singleton.mp hone
          rw [hx2] at hxk
          exact absurd hxk.symm hk
      · have hprev : liveUserTok s1 uid t2 = none := by
          rw [hlu1, if_neg hlive]
        simp only [hprev] at htk2
        intro x hx hxk
        rw [htk2] at hx
        rcases List.mem_append.mp hx with hin | hone
        · have hin1 := (List.mem_filter.mp hin).1
          have hx1 := hs1tok x hin1 hxk
          rw [hx1]
          show ¬(t < t1 + (settings.password_reset_token_expires_minutes : Int) * 60)
          omega
        · have hx2 := List.mem_singleton.mp hone
          rw [hx2] at hxk
          exact absurd hxk.symm hk
    unfold reset_password
    rw [liveTokUser_none_of s2 k1 t hdead]

/-- C8 witness: account 7, empty store; requests at seconds 0..5 with
fresh tokens "a".."f" — the sixth returns `none`; and after "b" is issued
at second 1, consuming "a" at second 2 is rejected as `invalid_token`. -/
theorem password_reset_rate_limit_and_rotation_witness :
    (create_password_reset_token ⟨15, 60, 30⟩
        (create_password_reset_token ⟨15, 60, 30⟩
          (create_password_reset_token ⟨15, 60, 30⟩
            (create_password_reset_token ⟨15, 60, 30⟩
              (create_password_reset_token ⟨15, 60, 30⟩
                (create_password_reset_token ⟨15, 60, 30⟩ ⟨[], [], []⟩
                  (some 7) 0 "a").2
                (some 7) 1 "b").2
              (some 7) 2 "c").2
            (some 7) 3 "d").2
          (some 7) 4 "e").2
        (some 7) 5 "f").1 = none ∧
    reset_password
      (create_password_reset_token ⟨15, 60, 30⟩
        (create_password_reset_token ⟨15, 60, 30⟩ ⟨[], [], []⟩
          (some 7) 0 "a").2
        (some 7) 1 "b").2
      "a" "np" 2 (fun _ => none) = Except.error "invalid_token" := by
  constructor
  · exact ((password_reset_rate_limit_and_rotation ⟨15, 60, 30⟩).1
      ⟨[], [], []⟩ 7 0 1 2 3 4 5 "a" "b" "c" "d" "e" "f"
      _ _ _ _ _ _ _ _ _ _ _ _
      rfl (by decide) (by decide) (by decide) (by decide) (by decide)
      (by decide) rfl rfl rfl rfl rfl rfl).2.2.2.2.2
  · exact (password_reset_rate_limit_and_rotation ⟨15, 60, 30⟩).2
      ⟨[], [], []⟩ 7 0 1 2 "a" "b" "np" _ _ (fun _ => none)
      (by decide) (by decide) (by decide) rfl rfl

end AuthMicroservice
